import Mathlib

/-!
# CC-Switch proxy core: shallow embedding and verification

This file embeds the proxy core of the CC-Switch repository
(`src-tauri/src/proxy/`) in Lean 4 and proves properties of the embedded
definitions.  Each definition is translated from the Rust source file noted in
its doc comment.  Components of the repository that are not part of the given
sources (the circuit-breaker internals in `circuit_breaker.rs` and the HTTP
ingress handlers) are modelled from the specification and are marked as such.

Strings are Lean `String`s, with the character-level operations implemented on
`List Char` by structural recursion so that all definitions evaluate inside
the kernel; Rust `u64`/`u32`/`usize` become `Nat` (values involved in the
claims are far from overflow, except where modelled explicitly); `HashMap`s
become association lists; `Instant`s become `Nat` timestamps; network calls
are abstracted as oracle parameters where the logic around the call is what a
claim is about.  All model identifiers appearing in the repository are ASCII,
so ASCII-only case folding coincides with Rust's `to_lowercase`.
-/

namespace CCSwitch

/-! ## String helpers -/

/-- ASCII lower-casing of one character (Rust `to_lowercase` on the ASCII
model ids used throughout). -/
def lowerChar (c : Char) : Char :=
  if 'A' ≤ c ∧ c ≤ 'Z' then Char.ofNat (c.toNat + 32) else c

def lowerList (l : List Char) : List Char := l.map lowerChar

def lowerStr (s : String) : String := String.mk (lowerList s.toList)

/-- `listPrefix pat l`: `pat` is a prefix of `l`. -/
def listPrefix : List Char → List Char → Bool
  | [], _ => true
  | _ :: _, [] => false
  | a :: as, b :: bs => a == b && listPrefix as bs

/-- `listInfix pat l`: `pat` occurs as a contiguous substring of `l`
(Rust `str::contains`). -/
def listInfix (pat : List Char) : List Char → Bool
  | [] => pat.isEmpty
  | b :: bs => listPrefix pat (b :: bs) || listInfix pat bs

def containsSub (s pat : String) : Bool := listInfix pat.toList s.toList

def strStartsWith (s pat : String) : Bool := listPrefix pat.toList s.toList

def isAsciiWhite (c : Char) : Bool := c == ' ' || c == '\t' || c == '\n' || c == '\r'

def trimList (l : List Char) : List Char :=
  ((l.dropWhile isAsciiWhite).reverse.dropWhile isAsciiWhite).reverse

/-- Rust `str::trim` (ASCII whitespace suffices for the ids involved). -/
def trimStr (s : String) : String := String.mk (trimList s.toList)

/-- Byte-wise lexicographic `≤` of Rust's `String: Ord` (char-wise is
equivalent on ASCII). -/
def listLe : List Char → List Char → Bool
  | [], _ => true
  | _ :: _, [] => false
  | a :: as, b :: bs =>
    if a == b then listLe as bs else decide (a.toNat < b.toNat)

def strLe (a b : String) : Bool := listLe a.toList b.toList

/-- The text after the last `/` (Rust `s.split('/').last()`). -/
def afterLastSlash (l : List Char) : List Char :=
  l.foldl (fun acc c => if c == '/' then [] else acc ++ [c]) []

/-! ## ModelCatalog (`src/src-tauri/src/proxy/model_catalog.rs`) -/

/-- `ModelFamily` from `model_catalog.rs`. -/
inductive ModelFamily where
  | Claude
  | OpenAi
  | Gemini
  | Llama
  | Qwen
  | Mistral
  | DeepSeek
  | Grok
  | Phi
  | Gemma
  | Glm
  | Kimi
  | Yi
  | Command
  | Jamba
  | Other
deriving DecidableEq, Repr

/-- `normalize` from `model_catalog.rs`: trim and lowercase. -/
def catalogNormalize (s : String) : List Char := lowerList (trimList s.toList)

def infixC (l : List Char) (pat : String) : Bool := listInfix pat.toList l

def prefixC (l : List Char) (pat : String) : Bool := listPrefix pat.toList l

/-- `detect_model_family` from `model_catalog.rs`.  After normalizing, the
segment after the last `/` is classified by the keyword checks, in source
order. -/
def detect_model_family (model_id : String) : ModelFamily :=
  let s := catalogNormalize model_id
  if s.isEmpty then ModelFamily.Other
  else
    let s := afterLastSlash s
    if infixC s "claude" then ModelFamily.Claude
    else if prefixC s "gpt-" || s == "chatgpt".toList || prefixC s "o1"
        || prefixC s "o3" || prefixC s "o4" || prefixC s "o5" then
      ModelFamily.OpenAi
    else if infixC s "gemini" then ModelFamily.Gemini
    else if infixC s "llama" || infixC s "meta-llama" then ModelFamily.Llama
    else if infixC s "qwen" then ModelFamily.Qwen
    else if infixC s "mistral" || infixC s "mixtral" then ModelFamily.Mistral
    else if infixC s "deepseek" then ModelFamily.DeepSeek
    else if infixC s "grok" then ModelFamily.Grok
    else if infixC s "phi-" || prefixC s "phi" then ModelFamily.Phi
    else if infixC s "gemma" then ModelFamily.Gemma
    else if infixC s "glm" then ModelFamily.Glm
    else if infixC s "kimi" || infixC s "moonshot" then ModelFamily.Kimi
    else if infixC s "yi-" || prefixC s "yi-" || infixC s "01-ai" then
      ModelFamily.Yi
    else if infixC s "command" then ModelFamily.Command
    else if infixC s "jamba" then ModelFamily.Jamba
    else ModelFamily.Other

/-- `is_same_family` from `model_catalog.rs`: conservative guard, a request
classified `Other` always passes. -/
def is_same_family (request_model candidate_model : String) : Bool :=
  let a := detect_model_family request_model
  let b := detect_model_family candidate_model
  if a = ModelFamily.Other then true else a = b

example : detect_model_family "claude-sonnet-4-5" = ModelFamily.Claude := by decide
example : detect_model_family "gpt-5.2" = ModelFamily.OpenAi := by decide
example : detect_model_family "zai-org/GLM-4.5" = ModelFamily.Glm := by decide
example : is_same_family "claude-sonnet-4-5" "glm-4.5" = false := by decide
example : is_same_family "unknown-model" "glm-4.5" = true := by decide

/-! ## Provider environment

The `env` object inside a provider's `settings_config` JSON, as an
association list.  `envGet` is `env.get(key).and_then(|v| v.as_str())` for a
string-valued key. -/

abbrev Env := List (String × String)

def envGet (env : Env) (key : String) : Option String :=
  (List.find? (fun p => p.1 == key) env).map Prod.snd

/-! ## ModelMapper (`src/src-tauri/src/proxy/model_mapper.rs`) -/

/-- `ModelMapping` from `model_mapper.rs`. -/
structure ModelMapping where
  haiku_model : Option String
  sonnet_model : Option String
  opus_model : Option String
  default_model : Option String
  reasoning_model : Option String
deriving Repr, DecidableEq

/-- `.filter(|s| !s.is_empty())` applied to an env read
(`ModelMapping::from_provider`). -/
def envGetNonEmpty (env : Env) (key : String) : Option String :=
  (envGet env key).filter (fun s => !s.isEmpty)

/-- `ModelMapping::from_provider` from `model_mapper.rs`. -/
def ModelMapping.from_provider (env : Env) : ModelMapping where
  haiku_model := envGetNonEmpty env "ANTHROPIC_DEFAULT_HAIKU_MODEL"
  sonnet_model := envGetNonEmpty env "ANTHROPIC_DEFAULT_SONNET_MODEL"
  opus_model := envGetNonEmpty env "ANTHROPIC_DEFAULT_OPUS_MODEL"
  default_model := envGetNonEmpty env "ANTHROPIC_MODEL"
  reasoning_model := envGetNonEmpty env "ANTHROPIC_REASONING_MODEL"

/-- `ModelMapping::has_mapping` from `model_mapper.rs`. -/
def ModelMapping.has_mapping (m : ModelMapping) : Bool :=
  m.haiku_model.isSome || m.sonnet_model.isSome || m.opus_model.isSome
    || m.default_model.isSome || m.reasoning_model.isSome

/-- The local fn `claude_family` inside `ModelMapping::map_model`: the
Claude sub-family keyword of an already lower-cased model id. -/
def claudeFamilyKeyword (lower : String) : Option String :=
  if containsSub lower "haiku" then some "haiku"
  else if containsSub lower "sonnet" then some "sonnet"
  else if containsSub lower "opus" then some "opus"
  else none

/-- The closure `is_acceptable_mapping` inside `ModelMapping::map_model`:
family anchoring via `is_same_family`, plus (for Claude-family originals that
carry a sub-family keyword) the mapped id must either carry no sub-family
keyword at all or contain the original's keyword. -/
def isAcceptableMapping (original_model : String) (mapped : String) : Bool :=
  let mapped_lower := lowerStr mapped
  if !is_same_family original_model mapped then false
  else
    if detect_model_family original_model = ModelFamily.Claude then
      match claudeFamilyKeyword (lowerStr original_model) with
      | some f =>
        (claudeFamilyKeyword mapped_lower).isNone || containsSub mapped_lower f
      | none => true
    else true

/-- One candidate slot of `ModelMapping::map_model`: a configured candidate
is kept only when `is_acceptable_mapping` passes (the `if let Some(m) = …
{ if is_acceptable_mapping(m) { return … } }` pattern). -/
def tryAccept (original_model : String) (c : Option String) : Option String :=
  match c with
  | some v => if isAcceptableMapping original_model v then some v else none
  | none => none

/-- `ModelMapping::map_model` from `model_mapper.rs`: the candidate cascade
reasoning-if-thinking → haiku → opus → sonnet (keyed on the original's
keywords) → default, each gated by `is_acceptable_mapping`; otherwise the
original is returned. -/
def ModelMapping.map_model (m : ModelMapping) (original_model : String)
    (has_thinking : Bool) : String :=
  match (if has_thinking then tryAccept original_model m.reasoning_model
      else none) with
  | some v => v
  | none =>
  match (if containsSub (lowerStr original_model) "haiku" then
      tryAccept original_model m.haiku_model else none) with
  | some v => v
  | none =>
  match (if containsSub (lowerStr original_model) "opus" then
      tryAccept original_model m.opus_model else none) with
  | some v => v
  | none =>
  match (if containsSub (lowerStr original_model) "sonnet" then
      tryAccept original_model m.sonnet_model else none) with
  | some v => v
  | none =>
  match tryAccept original_model m.default_model with
  | some v => v
  | none => original_model

/-- `apply_model_mapping` from `model_mapper.rs`, at the level of the body's
`model` field: given the original model (if any) and the body's thinking
flag, returns the model the request body carries afterwards.  (The Rust
function also returns the `(original, mapped)` pair used only for logging.) -/
def apply_model_mapping (env : Env) (model : Option String)
    (has_thinking : Bool) : Option String :=
  let mapping := ModelMapping.from_provider env
  if !mapping.has_mapping then model
  else
    match model with
    | some original => some (mapping.map_model original has_thinking)
    | none => none

/-- The env of the `create_provider_with_mapping` fixture in the Rust unit
tests of `model_mapper.rs`, used to cross-check the embedding. -/
def mapperTestEnv : Env :=
  [("ANTHROPIC_MODEL", "cursor2-claude-4.5-sonnet"),
   ("ANTHROPIC_DEFAULT_HAIKU_MODEL", "claude-haiku-4-5-2cc"),
   ("ANTHROPIC_DEFAULT_SONNET_MODEL", "cursor2-claude-4.5-sonnet"),
   ("ANTHROPIC_DEFAULT_OPUS_MODEL", "claude-opus-4-5-2cc"),
   ("ANTHROPIC_REASONING_MODEL", "claude-sonnet-4-5-thinking")]

example : apply_model_mapping mapperTestEnv (some "claude-sonnet-4-5-20250929") false
    = some "cursor2-claude-4.5-sonnet" := by decide
example : apply_model_mapping mapperTestEnv (some "claude-haiku-4-5") false
    = some "claude-haiku-4-5-2cc" := by decide
example : apply_model_mapping mapperTestEnv (some "claude-sonnet-4-5") true
    = some "claude-sonnet-4-5-thinking" := by decide
example : apply_model_mapping mapperTestEnv (some "Claude-SONNET-4-5") false
    = some "cursor2-claude-4.5-sonnet" := by decide
example : apply_model_mapping mapperTestEnv (some "some-unknown-model") false
    = some "cursor2-claude-4.5-sonnet" := by decide
example : apply_model_mapping
    [("ANTHROPIC_DEFAULT_HAIKU_MODEL", "zai-org/GLM-4.5")]
    (some "claude-haiku-4-5") false = some "claude-haiku-4-5" := by decide

/-! ## ModelResolver for Claude (`src/src-tauri/src/proxy/model_resolver.rs`)

The `/v1/models` fetch and its caches perform network I/O; the resolution
logic that runs once a model list is available is embedded below with the
fetched list as a parameter. -/

/-- `normalize_token` from `model_resolver.rs`: trim + lowercase. -/
def normalize_token (s : String) : String := lowerStr (trimStr s)

/-- The resolver-internal `Family` enum (Claude sub-families). -/
inductive SubFamily where
  | Haiku
  | Sonnet
  | Opus
deriving DecidableEq, Repr

/-- `detect_family` from `model_resolver.rs`. -/
def detect_family (s : String) : Option SubFamily :=
  let sl := lowerStr s
  if containsSub sl "haiku" then some SubFamily.Haiku
  else if containsSub sl "sonnet" then some SubFamily.Sonnet
  else if containsSub sl "opus" then some SubFamily.Opus
  else none

/-- `detect_thinking` from `model_resolver.rs`. -/
def detect_thinking (s : String) : Bool :=
  let sl := lowerStr s
  containsSub sl "thinking" || containsSub sl "reasoning" || containsSub sl ":extended"

/-- Splits off the maximal leading digit run. -/
def digitRun : List Char → List Char × List Char
  | [] => ([], [])
  | c :: cs =>
    if c.isDigit then
      let p := digitRun cs
      (c :: p.1, p.2)
    else ([], c :: cs)

/-- Digits to a number, modelling Rust `parse::<u32>()` (fails above
`u32::MAX`). -/
def parseU32 (l : List Char) : Option Nat :=
  let n := l.foldl (fun acc c => acc * 10 + (c.toNat - '0'.toNat)) 0
  if l.isEmpty || n ≥ 2 ^ 32 then none else some n

/-- Leftmost match of the regex `(\d+)\.(\d+)` (`RE_DOT`): the two digit-run
captures.  A maximal digit run not followed by `.`+digit cannot match at any
position inside the run, so the scan may advance one character at a time. -/
def findDotMatch : List Char → Option (List Char × List Char)
  | [] => none
  | c :: cs =>
    (if c.isDigit then
      let p := digitRun (c :: cs)
      match p.2 with
      | '.' :: r2 =>
        if (r2.head?.map Char.isDigit).getD false then
          some (p.1, (digitRun r2).1)
        else none
      | _ => none
    else none).orElse (fun _ => findDotMatch cs)

/-- Leftmost match of the regex `(\d+)[-_](\d+)` (`RE_DASH`). -/
def findDashMatch : List Char → Option (List Char × List Char)
  | [] => none
  | c :: cs =>
    (if c.isDigit then
      let p := digitRun (c :: cs)
      match p.2 with
      | '-' :: r2 =>
        if (r2.head?.map Char.isDigit).getD false then
          some (p.1, (digitRun r2).1)
        else none
      | '_' :: r2 =>
        if (r2.head?.map Char.isDigit).getD false then
          some (p.1, (digitRun r2).1)
        else none
      | _ => none
    else none).orElse (fun _ => findDashMatch cs)

/-- `extract_major_minor` from `model_resolver.rs`: `RE_DOT` first, then
`RE_DASH`; on a match, each capture is `parse::<u32>`ed independently. -/
def extract_major_minor (s : String) : Option Nat × Option Nat :=
  match findDotMatch s.toList with
  | some (a, b) => (parseU32 a, parseU32 b)
  | none =>
    match findDashMatch s.toList with
    | some (a, b) => (parseU32 a, parseU32 b)
    | none => (none, none)

def isWordChar (c : Char) : Bool := c.isAlphanum || c == '_'

/-- Scanner for `extract_date_yyyymmdd`'s regex `\b(\d{8})\b`: an exactly
8-digit run delimited by word boundaries; `prev` is the character before the
current position. -/
def findDate8 (prev : Option Char) : List Char → Option (List Char)
  | [] => none
  | c :: cs =>
    (if (prev.map (fun p => !isWordChar p)).getD true && c.isDigit then
      let p := digitRun (c :: cs)
      if p.1.length == 8 && !((p.2.head?.map isWordChar).getD false) then
        some p.1
      else none
    else none).orElse (fun _ => findDate8 (some c) cs)

/-- `extract_date_yyyymmdd` from `model_resolver.rs`. -/
def extract_date_yyyymmdd (s : String) : Option String :=
  (findDate8 none s.toList).map String.mk

/-- `ModelFeatures` from `model_resolver.rs`. -/
structure ModelFeatures where
  family : Option SubFamily
  major : Option Nat
  minor : Option Nat
  thinking : Bool
  date : Option String
deriving DecidableEq, Repr

/-- `parse_features` from `model_resolver.rs`. -/
def parse_features (model : String) (thinking_from_body : Bool) : ModelFeatures :=
  let mm := extract_major_minor model
  { family := detect_family model
    major := mm.1
    minor := mm.2
    thinking := thinking_from_body || detect_thinking model
    date := extract_date_yyyymmdd model }

/-- `score_candidate` from `model_resolver.rs` (the Claude scorer). -/
def score_candidate (request candidate : ModelFeatures) : Int :=
  let s0 : Int := 0
  let s1 :=
    match request.family with
    | some req_f =>
      match candidate.family with
      | some c_f => if c_f = req_f then s0 + 100 else s0 - 1000
      | none => s0 - 50
    | none => s0
  let s2 :=
    match request.major, request.minor with
    | some req_major, some req_minor =>
      match candidate.major, candidate.minor with
      | some c_major, some c_minor =>
        if c_major = req_major ∧ c_minor = req_minor then s1 + 30
        else if c_major = req_major then s1 + 10
        else s1 - 50
      | some c_major, none => if c_major = req_major then s1 + 10 else s1 - 50
      | none, _ => s1 - 50
    | some req_major, none =>
      if candidate.major = some req_major then s1 + 10 else s1
    | none, _ => s1
  let s3 :=
    if request.thinking then (if candidate.thinking then s2 + 5 else s2 - 5)
    else if candidate.thinking then s2 - 2
    else s2
  match request.date, candidate.date with
  | some rd, some cd => if rd = cd then s3 + 2 else s3
  | _, _ => s3

def strLt (a b : String) : Bool :=
  listLe a.toList b.toList && !(a.toList == b.toList)

/-- The `best`-replacement rule of the scoring loops in `model_resolver.rs`
and `openai_model_resolver.rs`: higher score, then shorter id, then
lexicographically smaller id.  Lengths are byte lengths (`String::len`);
equal to character counts on the ASCII ids involved. -/
def betterCandidate (s : Int) (c : String) (best_s : Int) (best_c : String) : Bool :=
  s > best_s || (s == best_s && (c.length < best_c.length
    || (c.length == best_c.length && strLt c best_c)))

/-- One step of the scoring loop of `choose_best_model_with_avoid`. -/
def chooseStep (request : ModelFeatures) (request_is_claude : Bool)
    (has_family_match : Bool) (avoid_norm : List String)
    (best : Option (Int × String)) (c : String) : Option (Int × String) :=
  let cn := normalize_token c
  if avoid_norm.contains cn then best
  else if request_is_claude && !containsSub cn "claude" then best
  else
    let cf := parse_features c false
    if has_family_match && !(cf.family = request.family : Bool) then best
    else
      let s := score_candidate request cf
      match best with
      | none => some (s, c)
      | some (best_s, best_c) =>
        if betterCandidate s c best_s best_c then some (s, c) else best

/-- `choose_best_model_with_avoid` from `model_resolver.rs`. -/
def choose_best_model_with_avoid (request_model : String)
    (thinking_from_body : Bool) (candidates : List String)
    (avoid_norm : List String) : Option String :=
  let req_norm := normalize_token request_model
  let request := parse_features request_model thinking_from_body
  let request_is_claude := detect_model_family request_model = ModelFamily.Claude
  let has_family_match := request.family.isSome && candidates.any (fun c =>
    if avoid_norm.contains (normalize_token c) then false
    else if request_is_claude && !containsSub (normalize_token c) "claude" then false
    else (parse_features c false).family = request.family)
  let exact := candidates.find? (fun c =>
    let cn := normalize_token c
    !avoid_norm.contains cn
      && !(request_is_claude && !containsSub cn "claude")
      && cn == req_norm)
  match exact with
  | some c => some c
  | none =>
    (candidates.foldl
      (chooseStep request request_is_claude has_family_match avoid_norm)
      none).map Prod.snd

/-- `determine_writeback_key` from `model_resolver.rs`. -/
def determine_writeback_key (original_request_model : String)
    (thinking_from_body : Bool) : String :=
  if thinking_from_body || detect_thinking original_request_model then
    "ANTHROPIC_REASONING_MODEL"
  else
    match detect_family original_request_model with
    | some SubFamily.Haiku => "ANTHROPIC_DEFAULT_HAIKU_MODEL"
    | some SubFamily.Sonnet => "ANTHROPIC_DEFAULT_SONNET_MODEL"
    | some SubFamily.Opus => "ANTHROPIC_DEFAULT_OPUS_MODEL"
    | none => "ANTHROPIC_MODEL"

/-- `is_model_in_list` from `model_resolver.rs`. -/
def is_model_in_list (model : String) (candidates : List String) : Bool :=
  let m := normalize_token model
  candidates.any (fun c => normalize_token c == m)

/-- `ModelWriteback` from `model_resolver.rs`. -/
structure ModelWriteback where
  env_key : String
  value : String
  from_model : String
  to_model : String
deriving DecidableEq, Repr

/-- `resolve_claude_model_in_body_with_avoid` from `model_resolver.rs`, after
the model list has been obtained (`get_or_fetch_model_list` abstracted into
the `models` parameter; when the fetch fails the Rust function returns the
body unchanged with no writeback, which the caller can express by the
unchanged result).  `current_model` is the body's `model` field, and the
returned `Option String` is the body's `model` field afterwards. -/
def resolve_claude_model_core (env : Env) (original_request_model : String)
    (thinking_from_body : Bool) (models : List String)
    (avoid_models : List String) (current_model : Option String) :
    Option String × Option ModelWriteback :=
  let request_features := parse_features original_request_model false
  let is_claudeish := request_features.family.isSome
    || (containsSub (lowerStr original_request_model) "claude"
        && (request_features.major.isSome || request_features.minor.isSome))
  if !is_claudeish then (current_model, none)
  else
    let avoid_norm := avoid_models.map normalize_token
    match current_model with
    | none => (none, none)
    | some current =>
      if is_model_in_list current models
          && !avoid_norm.contains (normalize_token current) then
        (some current, none)
      else
        match choose_best_model_with_avoid original_request_model
            thinking_from_body models avoid_norm with
        | none => (some current, none)
        | some chosen =>
          if normalize_token chosen == normalize_token current then
            (some current, none)
          else
            let env_key := determine_writeback_key original_request_model
              thinking_from_body
            let existing := envGet env env_key
            let needs_writeback :=
              (existing.map
                (fun v => !(normalize_token v == normalize_token chosen))).getD true
            let wb :=
              if needs_writeback then
                some { env_key := env_key, value := chosen,
                       from_model := current, to_model := chosen }
              else none
            (some chosen, wb)

/-- The Claude `/v1/messages` body rewrite performed by the Forwarder
(`forwarder.rs`, the `is_claude && endpoint == "/v1/messages"` arm of the
`final_body` computation): `apply_model_mapping` followed by
`resolve_claude_model_in_body` (avoid list empty), for a request whose
original model is present. -/
def claude_body_rewrite (env : Env) (original_model : String)
    (thinking : Bool) (models : List String) :
    Option String × Option ModelWriteback :=
  let mapped := apply_model_mapping env (some original_model) thinking
  resolve_claude_model_core env original_model thinking models [] mapped

example : parse_features "claude-sonnet-4-5-20250929" false
    = { family := some SubFamily.Sonnet, major := some 4, minor := some 5,
        thinking := false, date := some "20250929" } := by decide
example : parse_features "cursor2-claude-4.5-sonnet" false
    = { family := some SubFamily.Sonnet, major := some 4, minor := some 5,
        thinking := false, date := none } := by decide
example : (parse_features "claude-sonnet-4-5-thinking" false).thinking = true := by decide
example : choose_best_model_with_avoid "claude-sonnet-4-5-20250929" false
    ["claude-haiku-4-5", "cursor2-claude-4.5-sonnet", "claude-sonnet-4-5-thinking"] []
    = some "cursor2-claude-4.5-sonnet" := by decide
example : choose_best_model_with_avoid "claude-sonnet-4-5-20250929" true
    ["claude-haiku-4-5", "cursor2-claude-4.5-sonnet", "claude-sonnet-4-5-thinking"] []
    = some "claude-sonnet-4-5-thinking" := by decide
example : claude_body_rewrite
    [("ANTHROPIC_DEFAULT_SONNET_MODEL", "cursor2-claude-4.5-sonnet")]
    "claude-sonnet-4-5-20250929" true
    ["cursor2-claude-4.5-sonnet", "claude-haiku-4-5", "claude-sonnet-4-5-thinking"]
    = (some "cursor2-claude-4.5-sonnet", none) := by decide

/-! ## OpenAIModelResolver alias map
(`src/src-tauri/src/proxy/openai_model_resolver.rs`) -/

/-- `HashMap::insert` on an association list with distinct keys: replace the
value if the key is present, else append the binding. -/
def insertAL (m : List (String × String)) (k v : String) :
    List (String × String) :=
  if m.any (fun p => p.1 == k) then
    m.map (fun p => if p.1 == k then (k, v) else p)
  else m ++ [(k, v)]

/-- `keys.sort()` on the collected key vector. -/
def sortKeys (l : List String) : List String :=
  l.insertionSort (fun a b => strLe a b = true)

/-- The size-limiting step of `merge_alias_map`: if more than 64 keys remain
after the insert, remove the bindings whose keys come first in sort order. -/
def mergeAliasTrim (m : List (String × String)) : List (String × String) :=
  if (sortKeys (m.map Prod.fst)).length > 64 then
    m.filter (fun p =>
      !((sortKeys (m.map Prod.fst)).take
          ((sortKeys (m.map Prod.fst)).length - 64)).contains p.1)
  else m

/-- `merge_alias_map` from `openai_model_resolver.rs`: insert
`normalize_token(request_key) → chosen`, then limit the map to 64 entries.
(The Rust function serializes the resulting map to JSON; the entry set is
what is serialized.) -/
def merge_alias_map (current : List (String × String))
    (request_key chosen : String) : List (String × String) :=
  mergeAliasTrim (insertAL current (normalize_token request_key) chosen)

theorem mapFst_insertAL (m : List (String × String)) (k v : String) :
    (insertAL m k v).map Prod.fst
      = if m.any (fun p => p.1 == k) then m.map Prod.fst
        else m.map Prod.fst ++ [k] := by
  unfold insertAL
  split
  · next h =>
    simp only [List.map_map]
    apply List.map_congr_left
    intro p _
    by_cases hp : p.1 = k
    · simp [hp]
    · simp [hp]
  · simp

theorem nodup_mapFst_insertAL (m : List (String × String)) (k v : String)
    (h : (m.map Prod.fst).Nodup) : ((insertAL m k v).map Prod.fst).Nodup := by
  rw [mapFst_insertAL]
  split
  · exact h
  · next hany =>
    have hk : k ∉ m.map Prod.fst := by
      intro hmem
      apply hany
      rw [List.any_eq_true]
      obtain ⟨p, hp, hfst⟩ := List.mem_map.mp hmem
      exact ⟨p, hp, by simp [hfst]⟩
    exact (List.perm_append_singleton k (m.map Prod.fst)).nodup_iff.mpr
      (List.nodup_cons.mpr ⟨hk, h⟩)

theorem mapFst_filter_key (m : List (String × String)) (q : String → Bool) :
    (m.filter (fun p => q p.1)).map Prod.fst = (m.map Prod.fst).filter q := by
  induction m with
  | nil => rfl
  | cons p t ih =>
    by_cases hq : q p.1
    · simp [List.filter_cons, hq, ih]
    · simp [List.filter_cons, hq, ih]

theorem filter_perm_drop (K : List String) (hK : K.Nodup) (d : Nat) :
    List.Perm (K.filter (fun x => !((sortKeys K).take d).contains x))
      ((sortKeys K).drop d) := by
  have hS : List.Perm (sortKeys K) K := List.perm_insertionSort _ K
  have hSn : (sortKeys K).Nodup := hS.nodup_iff.mpr hK
  have h1 : List.Perm (K.filter (fun x => !((sortKeys K).take d).contains x))
      ((sortKeys K).filter (fun x => !((sortKeys K).take d).contains x)) :=
    (hS.filter _).symm
  have h3 : ((sortKeys K).take d).filter
      (fun x => !((sortKeys K).take d).contains x) = [] := by
    rw [List.filter_eq_nil_iff]
    intro a ha
    simp only [Bool.not_eq_true', Bool.not_eq_false]
    exact List.elem_eq_true_of_mem ha
  have hdisj : List.Disjoint ((sortKeys K).take d) ((sortKeys K).drop d) :=
    List.disjoint_take_drop hSn (le_refl d)
  have h4 : ((sortKeys K).drop d).filter
      (fun x => !((sortKeys K).take d).contains x) = (sortKeys K).drop d := by
    rw [List.filter_eq_self]
    intro a ha
    simp only [Bool.not_eq_true']
    rw [← Bool.not_eq_true]
    intro hmem
    exact hdisj (List.mem_of_elem_eq_true hmem) ha
  have h2 := @List.filter_append String
    (fun x => !((sortKeys K).take d).contains x)
    ((sortKeys K).take d) ((sortKeys K).drop d)
  rw [List.take_append_drop, h3, h4, List.nil_append] at h2
  rw [← h2]
  exact h1

theorem mergeAliasTrim_spec (m : List (String × String))
    (h : (m.map Prod.fst).Nodup) :
    (mergeAliasTrim m).length ≤ 64 ∧
    ((sortKeys (m.map Prod.fst)).length > 64 →
      List.Perm ((mergeAliasTrim m).map Prod.fst)
        ((sortKeys (m.map Prod.fst)).drop
          ((sortKeys (m.map Prod.fst)).length - 64))) := by
  have hSK : List.Perm (sortKeys (m.map Prod.fst)) (m.map Prod.fst) :=
    List.perm_insertionSort _ _
  by_cases hlen : (sortKeys (m.map Prod.fst)).length > 64
  · have hmerge : mergeAliasTrim m
        = m.filter (fun p =>
            !((sortKeys (m.map Prod.fst)).take
                ((sortKeys (m.map Prod.fst)).length - 64)).contains p.1) := by
      unfold mergeAliasTrim
      rw [if_pos hlen]
    have hfst : (mergeAliasTrim m).map Prod.fst
        = (m.map Prod.fst).filter (fun x =>
            !((sortKeys (m.map Prod.fst)).take
                ((sortKeys (m.map Prod.fst)).length - 64)).contains x) := by
      rw [hmerge]
      exact mapFst_filter_key m (fun x =>
        !((sortKeys (m.map Prod.fst)).take
            ((sortKeys (m.map Prod.fst)).length - 64)).contains x)
    have hperm := filter_perm_drop (m.map Prod.fst) h
      ((sortKeys (m.map Prod.fst)).length - 64)
    rw [← hfst] at hperm
    constructor
    · have hl1 : (mergeAliasTrim m).length
          = ((mergeAliasTrim m).map Prod.fst).length := (List.length_map _ _).symm
      rw [hl1, hperm.length_eq, List.length_drop]
      omega
    · intro _
      exact hperm
  · have hmerge : mergeAliasTrim m = m := by
      unfold mergeAliasTrim
      rw [if_neg hlen]
    constructor
    · have : (m.map Prod.fst).length = (sortKeys (m.map Prod.fst)).length :=
        hSK.length_eq.symm
      rw [hmerge, ← List.length_map m Prod.fst, this]
      omega
    · intro hc
      exact absurd hc hlen

/-- C6: for every existing alias map (a finite map, so its keys are
distinct) and every `(request model, chosen model)` pair, the merged Codex
alias map contains at most 64 entries, and on overflow the entries whose
keys come first in key-sort order are dropped: the surviving key set is
exactly the sorted key list with its first `len - 64` elements removed. -/
theorem C6_alias_map_bound (current : List (String × String))
    (request_key chosen : String) (h : (current.map Prod.fst).Nodup) :
    (merge_alias_map current request_key chosen).length ≤ 64 ∧
    ((sortKeys ((insertAL current (normalize_token request_key) chosen).map
        Prod.fst)).length > 64 →
      List.Perm ((merge_alias_map current request_key chosen).map Prod.fst)
        ((sortKeys ((insertAL current (normalize_token request_key) chosen).map
            Prod.fst)).drop
          ((sortKeys ((insertAL current (normalize_token request_key)
              chosen).map Prod.fst)).length - 64))) :=
  mergeAliasTrim_spec (insertAL current (normalize_token request_key) chosen)
    (nodup_mapFst_insertAL current (normalize_token request_key) chosen h)

/-- Witness for `C6_alias_map_bound`: instantiating it at a concrete
one-entry map discharges its hypothesis. -/
theorem C6_alias_map_bound_witness :
    ((([("gpt-5.2-old", "gpt-5.2")] : List (String × String)).map
        Prod.fst).Nodup) ∧
    (merge_alias_map [("gpt-5.2-old", "gpt-5.2")] "gpt-5.2"
        "gpt-5.2-codex").length ≤ 64 :=
  ⟨by decide,
   (C6_alias_map_bound [("gpt-5.2-old", "gpt-5.2")] "gpt-5.2" "gpt-5.2-codex"
     (by decide)).1⟩

/-! ## Claims C7 and C2: the Claude mapping pipeline -/

/-- The candidate order of `ModelMapping::map_model`:
reasoning-if-thinking, then the haiku/opus/sonnet slots keyed on the
original's keywords, then the default slot. -/
def mapperCandidateOrder (m : ModelMapping) (original : String)
    (thinking : Bool) : List String :=
  ((if thinking then [m.reasoning_model] else [])
    ++ (if containsSub (lowerStr original) "haiku" then [m.haiku_model] else [])
    ++ (if containsSub (lowerStr original) "opus" then [m.opus_model] else [])
    ++ (if containsSub (lowerStr original) "sonnet" then [m.sonnet_model] else [])
    ++ [m.default_model]).filterMap id

theorem tryAccept_eq_find (original : String) (cond : Bool) (c : Option String) :
    ((if cond then [c] else []).filterMap id).find?
      (isAcceptableMapping original)
      = (if cond then tryAccept original c else none) := by
  cases cond
  · rfl
  · cases c with
    | none => rfl
    | some v =>
      by_cases hacc : isAcceptableMapping original v <;>
        simp [tryAccept, List.filterMap, List.find?, hacc]

theorem find?_filterMap_append (p : String → Bool)
    (l1 l2 : List (Option String)) :
    ((l1 ++ l2).filterMap id).find? p
      = ((l1.filterMap id).find? p).or ((l2.filterMap id).find? p) := by
  rw [List.filterMap_append, List.find?_append]

theorem find_singleton_slot (original : String) (c : Option String) :
    (([c] : List (Option String)).filterMap id).find?
      (isAcceptableMapping original) = tryAccept original c := by
  cases c with
  | none => rfl
  | some v =>
    by_cases hacc : isAcceptableMapping original v <;>
      simp [tryAccept, List.filterMap, List.find?, hacc]

theorem mapperOrder_find_eq_orElse (m : ModelMapping) (original : String)
    (thinking : Bool) :
    ((mapperCandidateOrder m original thinking).find?
        (isAcceptableMapping original)).getD original
      = ((if thinking then tryAccept original m.reasoning_model
            else none).or
          ((if containsSub (lowerStr original) "haiku" then
              tryAccept original m.haiku_model else none).or
            ((if containsSub (lowerStr original) "opus" then
                tryAccept original m.opus_model else none).or
              ((if containsSub (lowerStr original) "sonnet" then
                  tryAccept original m.sonnet_model else none).or
                (tryAccept original m.default_model))))).getD original := by
  unfold mapperCandidateOrder
  rw [List.append_assoc, List.append_assoc, List.append_assoc,
    find?_filterMap_append, find?_filterMap_append, find?_filterMap_append,
    find?_filterMap_append, tryAccept_eq_find, tryAccept_eq_find,
    tryAccept_eq_find, tryAccept_eq_find, find_singleton_slot]

/-- C7 counterexample: with env mapping
`ANTHROPIC_DEFAULT_SONNET_MODEL = claude-4-5-fast`, the original
`claude-sonnet-4-5` (which contains the sub-family keyword `sonnet`) is
mapped to `claude-4-5-fast`, a candidate that is applied without keeping
that keyword — so a mapping candidate need not keep the sub-family keyword
as the claim states. -/
theorem C7_counterexample :
    ModelMapping.map_model
      { haiku_model := none, sonnet_model := some "claude-4-5-fast",
        opus_model := none, default_model := none, reasoning_model := none }
      "claude-sonnet-4-5" false = "claude-4-5-fast" ∧
    containsSub (lowerStr "claude-4-5-fast") "sonnet" = false ∧
    containsSub (lowerStr "claude-sonnet-4-5") "sonnet" = true := by
  refine ⟨by decide, by decide, by decide⟩

/-- C7 (amended): a mapping candidate is applied iff it is the first in the
order reasoning-if-thinking → haiku/opus/sonnet-by-keyword → default that
passes the acceptability test, where acceptability is the ModelCatalog
family guard together with, for a Claude-family original carrying a
sub-family keyword, the requirement that the candidate keep that keyword
*or carry no sub-family keyword at all*; failing candidates are discarded
and the next candidate is tried. -/
theorem C7_mapper_guard (m : ModelMapping) (original : String)
    (thinking : Bool) :
    m.map_model original thinking
      = ((mapperCandidateOrder m original thinking).find?
          (isAcceptableMapping original)).getD original ∧
    (∀ cand f, detect_model_family original = ModelFamily.Claude →
      claudeFamilyKeyword (lowerStr original) = some f →
      isAcceptableMapping original cand
        = (is_same_family original cand
            && ((claudeFamilyKeyword (lowerStr cand)).isNone
              || containsSub (lowerStr cand) f))) := by
  constructor
  · rw [mapperOrder_find_eq_orElse]
    unfold ModelMapping.map_model
    cases (if thinking then tryAccept original m.reasoning_model else none) <;>
      cases (if containsSub (lowerStr original) "haiku" then
        tryAccept original m.haiku_model else none) <;>
      cases (if containsSub (lowerStr original) "opus" then
        tryAccept original m.opus_model else none) <;>
      cases (if containsSub (lowerStr original) "sonnet" then
        tryAccept original m.sonnet_model else none) <;>
      cases tryAccept original m.default_model <;>
      rfl
  · intro cand f hfam hkw
    unfold isAcceptableMapping
    rw [hkw]
    by_cases hsf : is_same_family original cand
    · simp [hsf, hfam]
    · simp [hsf]

/-- C2 counterexample: for the request model `claude-sonnet-4-5-20250929`
with `thinking.type = "enabled"`, env `ANTHROPIC_DEFAULT_SONNET_MODEL =
cursor2-claude-4.5-sonnet` and the `/v1/models` list
`[cursor2-claude-4.5-sonnet, claude-haiku-4-5, claude-sonnet-4-5-thinking]`,
ModelMapper followed by the Claude ModelResolver does *not* rewrite the
model to `claude-sonnet-4-5-thinking` and produces no writeback: the mapper
rewrites to `cursor2-claude-4.5-sonnet`, which is already in the list, so
the resolver keeps it. -/
theorem C2_counterexample :
    ¬ ((claude_body_rewrite
        [("ANTHROPIC_DEFAULT_SONNET_MODEL", "cursor2-claude-4.5-sonnet")]
        "claude-sonnet-4-5-20250929" true
        ["cursor2-claude-4.5-sonnet", "claude-haiku-4-5",
         "claude-sonnet-4-5-thinking"]).1
      = some "claude-sonnet-4-5-thinking") := by decide

/-- C2 (amended): for the same request, env and `/v1/models` list, applying
ModelMapper followed by the Claude ModelResolver rewrites `body.model` to
`cursor2-claude-4.5-sonnet` (the `ANTHROPIC_DEFAULT_SONNET_MODEL` mapping,
which also applies in thinking mode because no `ANTHROPIC_REASONING_MODEL`
is configured) and produces no pending writeback, because the mapped model
is already contained in the provider's `/v1/models` list and the resolver
then keeps the current model unchanged. -/
theorem C2_thinking_pipeline :
    claude_body_rewrite
        [("ANTHROPIC_DEFAULT_SONNET_MODEL", "cursor2-claude-4.5-sonnet")]
        "claude-sonnet-4-5-20250929" true
        ["cursor2-claude-4.5-sonnet", "claude-haiku-4-5",
         "claude-sonnet-4-5-thinking"]
      = (some "cursor2-claude-4.5-sonnet", none) := by decide

/-! ## CircuitBreaker

Modelled from the spec: `circuit_breaker.rs` is not among the given sources
(only its callers are), so the three-state machine of spec §4.9 is modelled
here: Closed / Open(until) / HalfOpen(permits in flight), a fixed HalfOpen
permit budget, `allow_request` consuming a permit, and `is_available` as the
read-only predicate that is true iff `allow_request` would succeed. -/

structure AllowResult where
  allowed : Bool
  used_half_open_permit : Bool
deriving DecidableEq, Repr

/-- Modelled from the spec (§4.9): circuit-breaker state. -/
inductive BreakerState where
  | closed
  | opened (openUntil : Nat)
  | halfOpen (permits : Nat)
deriving DecidableEq, Repr

/-- Modelled from the spec (§4.9): `allow_request`, returning the
`AllowResult` and the successor state.  `budget` is the HalfOpen permit
budget (default 1). -/
def allowRequest (budget now : Nat) : BreakerState → AllowResult × BreakerState
  | BreakerState.closed =>
    (⟨true, false⟩, BreakerState.closed)
  | BreakerState.opened u =>
    if now ≥ u then (⟨true, true⟩, BreakerState.halfOpen 1)
    else (⟨false, false⟩, BreakerState.opened u)
  | BreakerState.halfOpen p =>
    if p < budget then (⟨true, true⟩, BreakerState.halfOpen (p + 1))
    else (⟨false, false⟩, BreakerState.halfOpen p)

/-- Modelled from the spec (§4.9): `is_available`, the read-only predicate
used by the Router's selection path. -/
def is_available (budget now : Nat) : BreakerState → Bool
  | BreakerState.closed => true
  | BreakerState.opened u => now ≥ u
  | BreakerState.halfOpen p => p < budget

/-- HalfOpen permits currently outstanding for a breaker. -/
def permitsOutstanding : BreakerState → Nat
  | BreakerState.halfOpen p => p
  | _ => 0

/-! ## TestOverride state (`src/src-tauri/src/proxy/provider_router.rs`) -/

/-- `TestOverride` from `provider_router.rs` (`expires_at` as a `Nat`
timestamp). -/
structure TestOverride where
  app_type : String
  priority : Nat
  supplier : String
  run_id : String
  expires_at : Nat
deriving DecidableEq, Repr

/-- `get_active_test_override` from `provider_router.rs`: under the write
lock, the stored override is returned only when it belongs to the requested
app and has not expired; in every other case (no override, other app, or
expired) the single global slot is reset to `None` and nothing is returned.
Returns `(returned override, new slot content)`. -/
def get_active_test_override (slot : Option TestOverride) (app_type : String)
    (now : Nat) : Option TestOverride × Option TestOverride :=
  match slot with
  | some o =>
    if o.app_type == app_type && decide (now < o.expires_at) then
      (some o, some o)
    else (none, none)
  | none => (none, none)

/-- `set_test_override` from `provider_router.rs`, restricted to the
override slot itself: stores the override with
`expires_at = now + ttl_secs`.  (The Rust function additionally clears the
supplier's current-URL/tested flags and the old run result.) -/
def set_test_override (app_type : String) (priority : Nat) (supplier : String)
    (run_id : String) (ttl_secs : Nat) (now : Nat) : Option TestOverride :=
  some { app_type := app_type, priority := priority, supplier := supplier,
         run_id := run_id, expires_at := now + ttl_secs }

/-- Modelled from the spec: the HTTP ingress handler for
`POST /__cc_switch/test_override/start` is not among the given sources; per
§4.10 it clamps the caller-supplied `ttl_secs` to `[15, 360]` seconds before
installing the override (Rust `clamp` semantics: `min` is applied after
`max`). -/
def start_test_override_handler (app_type : String) (priority : Nat)
    (supplier : String) (run_id : String) (ttl_secs : Nat) (now : Nat) :
    Option TestOverride :=
  set_test_override app_type priority supplier run_id
    (min (max ttl_secs 15) 360) now

/-- C8: for every `ttl_secs` passed when a test override is installed
through the test-override surface, the stored override's time-to-live is
clamped into `[15, 360]` seconds, and once the expiry has passed, the next
access drops the override (the slot is reset and nothing is returned). -/
theorem C8_ttl_clamp (app : String) (priority : Nat) (supplier run_id : String)
    (ttl now now2 : Nat) (app2 : String)
    (h : now + min (max ttl 15) 360 ≤ now2) :
    ∃ o, start_test_override_handler app priority supplier run_id ttl now
        = some o ∧
      15 ≤ o.expires_at - now ∧ o.expires_at - now ≤ 360 ∧
      get_active_test_override (some o) app2 now2 = (none, none) := by
  refine ⟨_, rfl, ?_, ?_, ?_⟩
  · show 15 ≤ now + min (max ttl 15) 360 - now
    omega
  · show now + min (max ttl 15) 360 - now ≤ 360
    omega
  · show get_active_test_override
      (some { app_type := app, priority := priority, supplier := supplier,
              run_id := run_id, expires_at := now + min (max ttl 15) 360 })
      app2 now2 = (none, none)
    unfold get_active_test_override
    have hlt : ¬ (now2 < now + min (max ttl 15) 360) := by omega
    simp [hlt]

/-- Witness for `C8_ttl_clamp` at ttl = 1000 (clamped to 360), accessed at
time 360. -/
theorem C8_ttl_clamp_witness :
    (0 + min (max 1000 15) 360 ≤ 360) ∧
    ∃ o, start_test_override_handler "claude" 1 "anyrouter" "r1" 1000 0
        = some o ∧
      15 ≤ o.expires_at - 0 ∧ o.expires_at - 0 ≤ 360 ∧
      get_active_test_override (some o) "claude" 360 = (none, none) :=
  ⟨by decide,
   C8_ttl_clamp "claude" 1 "anyrouter" "r1" 1000 0 360 "claude" (by decide)⟩

/-- C10: any lookup of the active test override clears the single global
slot whenever the stored override does not match: an override for a
different `app_type` — even one that has not expired — or an expired
override is reset to `None` and the lookup returns no override. -/
theorem C10_mismatch_clears (o : TestOverride) (app : String) (now : Nat)
    (h : o.app_type ≠ app ∨ o.expires_at ≤ now) :
    get_active_test_override (some o) app now = (none, none) := by
  unfold get_active_test_override
  rcases h with h | h
  · have : (o.app_type == app) = false := by
      simp only [beq_eq_false_iff_ne, ne_eq]
      exact h
    simp [this]
  · have : ¬ (now < o.expires_at) := by omega
    simp [this]

/-- Witness for `C10_mismatch_clears`: an active, unexpired override
registered for codex is silently discarded by a claude lookup. -/
theorem C10_mismatch_clears_witness :
    (("codex" : String) ≠ "claude" ∨ (100 : Nat) ≤ 0) ∧
    get_active_test_override
      (some { app_type := "codex", priority := 1, supplier := "anyrouter",
              run_id := "r", expires_at := 100 }) "claude" 0 = (none, none) :=
  ⟨Or.inl (by decide),
   C10_mismatch_clears
     { app_type := "codex", priority := 1, supplier := "anyrouter",
       run_id := "r", expires_at := 100 } "claude" 0 (Or.inl (by decide))⟩

/-! ## ProviderRouter selection (`src/src-tauri/src/proxy/provider_router.rs`)

The `select_providers_impl` state machine.  The benchmark branch (lines that
probe URLs over the network when no current URL is cached) is abstracted by
the oracle parameter `bench`; that branch writes only URL-latency/tested
caches and the chosen current URL, never circuit-breaker state.  `HashMap`
iteration order inside a tier (suppliers, and keys within a URL) is
nondeterministic in Rust; it is fixed to first-appearance order here, which
is sound for the selected chain because the per-tier candidate list is
sorted by provider id before use. -/

/-- The fields of a `Provider` record read by the router (`provider.rs` is
not among the sources; the fields and their uses are those of
`provider_router.rs`). -/
structure Provider where
  id : String
  name : String
  sort_index : Option Nat
  env : Env
  base_url_field : Option String
deriving DecidableEq, Repr

def beforeFirstDash (l : List Char) : List Char :=
  l.takeWhile (fun c => c != '-')

/-- `supplier_name` from `provider_router.rs`: the text before the first
`-` of the provider name. -/
def supplier_name (p : Provider) : String :=
  String.mk (beforeFirstDash p.name.toList)

/-- `extract_base_url` from `provider_router.rs`. -/
def extract_base_url (p : Provider) (app_type : String) : Option String :=
  if app_type == "claude" then envGet p.env "ANTHROPIC_BASE_URL"
  else if app_type == "gemini" then envGet p.env "GOOGLE_GEMINI_BASE_URL"
  else if app_type == "codex" then p.base_url_field
  else none

/-- `extract_api_key_value` from `provider_router.rs`. -/
def extract_api_key_value (p : Provider) (app_type : String) : Option String :=
  if app_type == "claude" then
    match envGet p.env "ANTHROPIC_API_KEY" with
    | some k => some k
    | none => envGet p.env "ANTHROPIC_AUTH_TOKEN"
  else if app_type == "gemini" then envGet p.env "GOOGLE_API_KEY"
  else if app_type == "codex" then envGet p.env "OPENAI_API_KEY"
  else none

def alGet {α : Type} (m : List (String × α)) (key : String) : Option α :=
  (List.find? (fun p => p.1 == key) m).map Prod.snd

def alSet {α : Type} (m : List (String × α)) (key : String) (v : α) :
    List (String × α) :=
  if m.any (fun p => p.1 == key) then
    m.map (fun p => if p.1 == key then (key, v) else p)
  else m ++ [(key, v)]

def alRemove {α : Type} (m : List (String × α)) (key : String) :
    List (String × α) :=
  m.filter (fun p => !(p.1 == key))

/-- The in-memory router state of `ProviderRouter` (the maps behind its
`RwLock`s).  URL-latency and tested caches are folded into the abstracted
benchmark branch and therefore omitted. -/
structure RouterState where
  rr_counters : List (String × Nat)
  active_priority_level : List (String × Nat)
  supplier_cooldowns : List (String × Nat)
  suspect_urls : List (String × Nat)
  supplier_current_url : List (String × String)
  test_override : Option TestOverride
  breakers : String → BreakerState

/-- `is_url_suspect` from `provider_router.rs`: an unexpired mark is
suspect; a stale mark is removed. -/
def is_url_suspect (st : RouterState) (app_type supplier url : String)
    (now : Nat) : Bool × RouterState :=
  let key := app_type ++ ":" ++ supplier ++ ":" ++ url
  match alGet st.suspect_urls key with
  | some u =>
    if now < u then (true, st)
    else (false, { st with suspect_urls := alRemove st.suspect_urls key })
  | none => (false, st)

/-- `supplier_key` from `provider_router.rs`. -/
def supplierKey (app_type : String) (priority : Nat) (supplier : String) :
    String :=
  app_type ++ ":" ++ toString priority ++ ":" ++ supplier

/-- `is_supplier_in_cooldown` from `provider_router.rs`. -/
def is_supplier_in_cooldown (st : RouterState) (app_type : String)
    (priority : Nat) (supplier : String) (now : Nat) : Bool × RouterState :=
  let key := supplierKey app_type priority supplier
  match alGet st.supplier_cooldowns key with
  | some u =>
    if now < u then (true, st)
    else (false,
      { st with supplier_cooldowns := alRemove st.supplier_cooldowns key })
  | none => (false, st)

/-- `set_supplier_cooldown` from `provider_router.rs` (20 s in the caller). -/
def set_supplier_cooldown (st : RouterState) (app_type : String)
    (priority : Nat) (supplier : String) (now seconds : Nat) : RouterState :=
  { st with
    supplier_cooldowns := alSet st.supplier_cooldowns
      (supplierKey app_type priority supplier) (now + seconds) }

def set_supplier_current_url (st : RouterState) (app_type : String)
    (priority : Nat) (supplier : String) (url : String) : RouterState :=
  { st with
    supplier_current_url := alSet st.supplier_current_url
      (supplierKey app_type priority supplier) url }

def clear_supplier_current_url (st : RouterState) (app_type : String)
    (priority : Nat) (supplier : String) : RouterState :=
  { st with
    supplier_current_url := alRemove st.supplier_current_url
      (supplierKey app_type priority supplier) }

def get_supplier_current_url (st : RouterState) (app_type : String)
    (priority : Nat) (supplier : String) : Option String :=
  alGet st.supplier_current_url (supplierKey app_type priority supplier)

def uniqueKeep (l : List String) : List String :=
  l.foldl (fun acc x => if acc.contains x then acc else acc ++ [x]) []

/-- The current-URL recheck of `select_providers_impl` for a multi-URL
supplier: keep the current URL while it is still in the URL map and not
suspect; otherwise clear it. -/
def checkCurrentUrl (st : RouterState) (app_type : String) (priority : Nat)
    (supplier : String) (urls : List String) (now : Nat) :
    Option String × RouterState :=
  match get_supplier_current_url st app_type priority supplier with
  | some current =>
    if urls.contains current then
      match is_url_suspect st app_type supplier current now with
      | (true, st1) => (none, clear_supplier_current_url st1 app_type priority supplier)
      | (false, st1) => (some current, st1)
    else (none, clear_supplier_current_url st app_type priority supplier)
  | none => (none, st)

/-- The URL-selection step for one supplier in `select_providers_impl`: a
single non-suspect URL is pinned directly; with several URLs the current URL
is kept while still usable; otherwise the benchmark branch runs (abstracted
by `bench`, which returns the chosen URL if any usable one exists) and pins
its choice. -/
def selectUrlForSupplier (bench : Nat → String → List String → Option String)
    (st : RouterState) (app_type : String) (priority : Nat)
    (supplier : String) (urls : List String) (now : Nat) :
    Option String × RouterState :=
  match urls with
  | [url] =>
    match is_url_suspect st app_type supplier url now with
    | (true, st1) =>
      match bench priority supplier urls with
      | some u => (some u, set_supplier_current_url st1 app_type priority supplier u)
      | none => (none, st1)
    | (false, st1) =>
      (some url, set_supplier_current_url st1 app_type priority supplier url)
  | _ =>
    match checkCurrentUrl st app_type priority supplier urls now with
    | (some u, st1) => (some u, st1)
    | (none, st1) =>
      match bench priority supplier urls with
      | some u => (some u, set_supplier_current_url st1 app_type priority supplier u)
      | none => (none, st1)

/-- `unique_by_key` of `select_providers_impl`: deduplicate the providers at
the chosen URL by api-key value (providers with no key are skipped, the
first provider per key value is kept). -/
def uniqueByKey (app_type : String) (provs : List Provider) : List Provider :=
  (provs.foldl
    (fun (acc : List String × List Provider) p =>
      match extract_api_key_value p app_type with
      | none => acc
      | some k =>
        if acc.1.contains k then acc else (acc.1 ++ [k], acc.2 ++ [p]))
    ([], [])).2

/-- The URL selection, key deduplication and availability filter for one
supplier, after the cooldown gate. -/
def processSupplierUrls (bench : Nat → String → List String → Option String)
    (budget : Nat) (app_type : String) (priority : Nat) (now : Nat)
    (group : List Provider) (st : RouterState) (supplier : String) :
    List Provider × RouterState :=
  let urls := uniqueKeep (group.filterMap (fun p => extract_base_url p app_type))
  let sel := selectUrlForSupplier bench st app_type priority supplier urls now
  match sel with
  | (none, st') => ([], set_supplier_cooldown st' app_type priority supplier now 20)
  | (some url, st') =>
    let at_url := group.filter (fun p => extract_base_url p app_type == some url)
    let uniq := uniqueByKey app_type at_url
    let avail := uniq.filter (fun p =>
      is_available budget now (st'.breakers (app_type ++ ":" ++ p.id)))
    (avail, st')

/-- The per-supplier candidate computation of `select_providers_impl`:
cooldown gate (short-circuited away while an override is active, matching
`test_override.is_none() && is_supplier_in_cooldown(…)`), URL selection,
key deduplication and the read-only circuit-breaker availability filter
(`breaker.is_available()`).  A supplier with no usable URL is put into a
20 s cooldown and contributes nothing. -/
def processSupplier (bench : Nat → String → List String → Option String)
    (budget : Nat) (ov : Option TestOverride) (app_type : String)
    (priority : Nat) (now : Nat) (group : List Provider)
    (st : RouterState) (supplier : String) : List Provider × RouterState :=
  if ov.isNone then
    let cd := is_supplier_in_cooldown st app_type priority supplier now
    if cd.1 then ([], cd.2)
    else processSupplierUrls bench budget app_type priority now group cd.2 supplier
  else processSupplierUrls bench budget app_type priority now group st supplier

def sortById (l : List Provider) : List Provider :=
  l.insertionSort (fun a b => strLe a.id b.id = true)

def rotateLeft (l : List Provider) (k : Nat) : List Provider :=
  l.drop k ++ l.take k

/-- The supplier-fold step of a tier: accumulate one supplier's candidates. -/
def tierSupplierStep (bench : Nat → String → List String → Option String)
    (budget : Nat) (ov : Option TestOverride) (app_type : String)
    (priority : Nat) (now : Nat) (eligible : List Provider)
    (acc : List Provider × RouterState) (s : String) :
    List Provider × RouterState :=
  let grp := eligible.filter (fun p => supplier_name p == s)
  let r := processSupplier bench budget ov app_type priority now grp acc.2 s
  (acc.1 ++ r.1, r.2)

/-- The eligible providers of a tier: restricted to the override's supplier
when one is active, and to providers with an extractable base URL. -/
def tierEligible (ov : Option TestOverride) (app_type : String)
    (providers_in_level : List Provider) : List Provider :=
  providers_in_level.filter (fun p =>
    (match ov with
     | some o => supplier_name p == o.supplier
     | none => true)
    && (extract_base_url p app_type).isSome)

/-- The rotation-and-counter-update step applied to a tier's non-empty
candidate list: sort by provider id, rotate left by `counter % n`, and
post-increment the counter modulo `n`. -/
def rotateCandidates (app_type : String) (priority : Nat)
    (candidates : List Provider) (st : RouterState) :
    List Provider × RouterState :=
  let sorted := sortById candidates
  let counter_key := app_type ++ ":priority:" ++ toString priority ++ ":key-rr"
  let cnt := (alGet st.rr_counters counter_key).getD 0
  let rot := cnt % sorted.length
  let st2 := { st with
    rr_counters := alSet st.rr_counters counter_key
      ((cnt + 1) % sorted.length) }
  (rotateLeft sorted rot, st2)

/-- The per-tier step of `select_providers_impl`: group the tier's providers
by supplier, build candidates supplier by supplier, then sort the surviving
keys by provider id and rotate by the per-tier round-robin counter. -/
def processTier (bench : Nat → String → List String → Option String)
    (budget : Nat) (ov : Option TestOverride) (app_type : String)
    (priority : Nat) (now : Nat) (providers_in_level : List Provider)
    (st : RouterState) : List Provider × RouterState :=
  let eligible := tierEligible ov app_type providers_in_level
  let suppliers := uniqueKeep (eligible.map supplier_name)
  let folded := suppliers.foldl
    (tierSupplierStep bench budget ov app_type priority now eligible) ([], st)
  if folded.1.isEmpty then ([], folded.2)
  else rotateCandidates app_type priority folded.1 folded.2

def sortedPriorities (provs : List Provider) : List Nat :=
  ((provs.map (fun p => p.sort_index.getD 999999)).dedup).insertionSort (· ≤ ·)

/-- The override tier filter of `select_providers_impl`: while an override
is active only its tier is considered. -/
def prioMatchesOverride (ov : Option TestOverride) (pr : Nat) : Bool :=
  match ov with
  | some o => pr == o.priority
  | none => true

/-- The tier-fold step of `select_providers_impl`: run one tier and append
its candidates, recording the first non-empty tier. -/
def prioTierStep (bench : Nat → String → List String → Option String)
    (budget : Nat) (ov : Option TestOverride)
    (failover_providers : List Provider) (app_type : String) (now : Nat)
    (acc : (List Provider × Option Nat) × RouterState) (pr : Nat) :
    (List Provider × Option Nat) × RouterState :=
  let level := failover_providers.filter
    (fun p => p.sort_index.getD 999999 == pr)
  let r := processTier bench budget ov app_type pr now level acc.2
  if r.1.isEmpty then ((acc.1.1, acc.1.2), r.2)
  else ((acc.1.1 ++ r.1, acc.1.2.orElse (fun _ => some pr)), r.2)

/-- `select_providers_impl` from `provider_router.rs`.  With failover
disabled the current provider is returned and the circuit breaker bypassed;
with failover enabled the tiers are walked in ascending `sort_index` order
(restricted to the override's tier when one is active), each tier
contributing its rotated candidate list, and the first non-empty tier is
recorded as the active priority level.  An empty chain is a `Config`
error. -/
def select_providers_impl
    (bench : Nat → String → List String → Option String) (budget : Nat)
    (auto_failover_enabled : Bool) (current_provider : Option Provider)
    (failover_providers : List Provider) (app_type : String) (now : Nat)
    (st : RouterState) : Except String (List Provider) × RouterState :=
  if auto_failover_enabled then
    let ovp := get_active_test_override st.test_override app_type now
    let st0 := { st with test_override := ovp.2 }
    let ov := ovp.1
    let prios := (sortedPriorities failover_providers).filter
      (prioMatchesOverride ov)
    let folded := prios.foldl
      (prioTierStep bench budget ov failover_providers app_type now) (([], none), st0)
    match folded.1.2 with
    | none => (Except.error "no available providers", folded.2)
    | some target =>
      let st2 := { folded.2 with
        active_priority_level := alSet folded.2.active_priority_level
          app_type target }
      (Except.ok folded.1.1, st2)
  else
    match current_provider with
    | some current => (Except.ok [current], st)
    | none =>
      (Except.error "failover disabled but current provider missing", st)

/-! ## Scenario fixtures (spec S1) -/

/-- Tier-1 provider `a`: supplier anyrouter, URL U1, key K1. -/
def provA : Provider :=
  { id := "a", name := "anyrouter-key1", sort_index := some 1,
    env := [("ANTHROPIC_BASE_URL", "https://u1.example"),
            ("ANTHROPIC_API_KEY", "K1")],
    base_url_field := none }

/-- Tier-1 provider `b`: supplier anyrouter, URL U1, key K2. -/
def provB : Provider :=
  { id := "b", name := "anyrouter-key2", sort_index := some 1,
    env := [("ANTHROPIC_BASE_URL", "https://u1.example"),
            ("ANTHROPIC_API_KEY", "K2")],
    base_url_field := none }

/-- Tier-2 provider `c`: supplier openrouter, URL U2, key K3. -/
def provC : Provider :=
  { id := "c", name := "openrouter-key3", sort_index := some 2,
    env := [("ANTHROPIC_BASE_URL", "https://u2.example"),
            ("ANTHROPIC_API_KEY", "K3")],
    base_url_field := none }

/-- The router state at startup: empty maps, no override, every circuit
breaker Closed. -/
def initialRouterState : RouterState :=
  { rr_counters := [], active_priority_level := [],
    supplier_cooldowns := [], suspect_urls := [],
    supplier_current_url := [], test_override := none,
    breakers := fun _ => BreakerState.closed }

/-- A benchmark oracle that is never consulted in the S1 scenario (each
supplier has a single non-suspect URL). -/
def noBench : Nat → String → List String → Option String := fun _ _ _ => none

/-- C3: with failover enabled, tier-1 providers `a`/`b` (supplier anyrouter,
one URL, distinct keys) and tier-2 provider `c` (supplier openrouter), all
breakers Closed and no suspect or cooldown marks, two sequential selections
return the chains `[a, b, c]` and then `[b, a, c]`: within tier 1 the
key-deduplicated candidates are sorted by provider id and rotated left by
the per-tier round-robin counter (post-incremented modulo the candidate
count), and the tier-2 candidates are appended after tier 1. -/
theorem C3_round_robin_scenario :
    ((select_providers_impl noBench 1 true none [provA, provB, provC]
        "claude" 0 initialRouterState).1.toOption.map (List.map Provider.id))
      = some ["a", "b", "c"] ∧
    ((select_providers_impl noBench 1 true none [provA, provB, provC]
        "claude" 0
        (select_providers_impl noBench 1 true none [provA, provB, provC]
          "claude" 0 initialRouterState).2).1.toOption.map
        (List.map Provider.id))
      = some ["b", "a", "c"] := by
  constructor
  · decide
  · decide

/-! ## C4: selection never touches circuit-breaker state -/

theorem breakers_is_url_suspect (st : RouterState) (a s u : String) (now : Nat) :
    ((is_url_suspect st a s u now).2).breakers = st.breakers := by
  unfold is_url_suspect
  dsimp only
  split
  · split <;> rfl
  · rfl

theorem breakers_is_supplier_in_cooldown (st : RouterState) (a : String)
    (pr : Nat) (s : String) (now : Nat) :
    ((is_supplier_in_cooldown st a pr s now).2).breakers = st.breakers := by
  unfold is_supplier_in_cooldown
  dsimp only
  split
  · split <;> rfl
  · rfl

theorem breakers_set_cooldown (st : RouterState) (a : String) (pr : Nat)
    (s : String) (now secs : Nat) :
    (set_supplier_cooldown st a pr s now secs).breakers = st.breakers := rfl

theorem breakers_set_current (st : RouterState) (a : String) (pr : Nat)
    (s u : String) :
    (set_supplier_current_url st a pr s u).breakers = st.breakers := rfl

theorem breakers_clear_current (st : RouterState) (a : String) (pr : Nat)
    (s : String) :
    (clear_supplier_current_url st a pr s).breakers = st.breakers := rfl

theorem breakers_checkCurrentUrl (st : RouterState) (a : String) (pr : Nat)
    (s : String) (urls : List String) (now : Nat) :
    ((checkCurrentUrl st a pr s urls now).2).breakers = st.breakers := by
  unfold checkCurrentUrl
  split
  · rename_i current _
    split
    · split <;> rename_i st1 heq <;>
        have h := breakers_is_url_suspect st a s current now <;>
        rw [heq] at h
      · exact h
      · exact h
    · rfl
  · rfl

theorem breakers_selectUrl (bench : Nat → String → List String → Option String)
    (st : RouterState) (a : String) (pr : Nat) (s : String)
    (urls : List String) (now : Nat) :
    ((selectUrlForSupplier bench st a pr s urls now).2).breakers
      = st.breakers := by
  unfold selectUrlForSupplier
  split
  · rename_i url
    split <;> rename_i st1 heq <;>
      have h := breakers_is_url_suspect st a s url now <;>
      rw [heq] at h
    · split <;> exact h
    · exact h
  · split <;> rename_i st1 heq <;>
      have h := breakers_checkCurrentUrl st a pr s urls now <;>
      rw [heq] at h
    · exact h
    · split <;> exact h

theorem breakers_processSupplierUrls
    (bench : Nat → String → List String → Option String) (budget : Nat)
    (a : String) (pr now : Nat) (group : List Provider) (st : RouterState)
    (s : String) :
    ((processSupplierUrls bench budget a pr now group st s).2).breakers
      = st.breakers := by
  unfold processSupplierUrls
  dsimp only
  have h := breakers_selectUrl bench st a pr s
    (uniqueKeep (group.filterMap (fun p => extract_base_url p a))) now
  split <;> rename_i st1 heq <;> rw [heq] at h
  · exact h
  · exact h

theorem breakers_processSupplier
    (bench : Nat → String → List String → Option String) (budget : Nat)
    (ov : Option TestOverride) (a : String) (pr now : Nat)
    (group : List Provider) (st : RouterState) (s : String) :
    ((processSupplier bench budget ov a pr now group st s).2).breakers
      = st.breakers := by
  unfold processSupplier
  split
  · dsimp only
    split
    · exact breakers_is_supplier_in_cooldown st a pr s now
    · rw [breakers_processSupplierUrls, breakers_is_supplier_in_cooldown]
  · exact breakers_processSupplierUrls bench budget a pr now group st s

theorem foldl_preserves {α σ : Type} (proj : σ → String → BreakerState)
    (f : σ → α → σ) (h : ∀ s a, proj (f s a) = proj s) :
    ∀ (l : List α) (s : σ), proj (l.foldl f s) = proj s := by
  intro l
  induction l with
  | nil => intro s; rfl
  | cons a t ih => intro s; rw [List.foldl_cons, ih, h]

theorem breakers_tierSupplierStep
    (bench : Nat → String → List String → Option String) (budget : Nat)
    (ov : Option TestOverride) (a : String) (pr now : Nat)
    (eligible : List Provider) (acc : List Provider × RouterState)
    (s : String) :
    ((tierSupplierStep bench budget ov a pr now eligible acc s).2).breakers
      = acc.2.breakers := by
  unfold tierSupplierStep
  exact breakers_processSupplier bench budget ov a pr now _ acc.2 s

theorem breakers_rotateCandidates (a : String) (pr : Nat)
    (candidates : List Provider) (st : RouterState) :
    ((rotateCandidates a pr candidates st).2).breakers = st.breakers := rfl

theorem breakers_processTier
    (bench : Nat → String → List String → Option String) (budget : Nat)
    (ov : Option TestOverride) (a : String) (pr now : Nat)
    (level : List Provider) (st : RouterState) :
    ((processTier bench budget ov a pr now level st).2).breakers
      = st.breakers := by
  unfold processTier
  dsimp only
  have hfold := foldl_preserves
    (fun (acc : List Provider × RouterState) => acc.2.breakers)
    (tierSupplierStep bench budget ov a pr now (tierEligible ov a level))
    (fun acc s => breakers_tierSupplierStep bench budget ov a pr now _ acc s)
    (uniqueKeep ((tierEligible ov a level).map supplier_name)) ([], st)
  split
  · exact hfold
  · rw [breakers_rotateCandidates]
    exact hfold

theorem breakers_prioTierStep
    (bench : Nat → String → List String → Option String) (budget : Nat)
    (ov : Option TestOverride) (provs : List Provider) (a : String)
    (now : Nat) (acc : (List Provider × Option Nat) × RouterState)
    (pr : Nat) :
    ((prioTierStep bench budget ov provs a now acc pr).2).breakers
      = acc.2.breakers := by
  unfold prioTierStep
  dsimp only
  split
  · exact breakers_processTier bench budget ov a pr now _ acc.2
  · exact breakers_processTier bench budget ov a pr now _ acc.2

theorem breakers_select_providers
    (bench : Nat → String → List String → Option String) (budget : Nat)
    (failover : Bool) (cur : Option Provider) (provs : List Provider)
    (a : String) (now : Nat) (st : RouterState) :
    ((select_providers_impl bench budget failover cur provs a now st).2).breakers
      = st.breakers := by
  unfold select_providers_impl
  split
  · dsimp only
    have hfold := foldl_preserves
      (fun (acc : (List Provider × Option Nat) × RouterState) => acc.2.breakers)
      (prioTierStep bench budget
        (get_active_test_override st.test_override a now).1 provs a now)
      (fun acc pr => breakers_prioTierStep bench budget _ provs a now acc pr)
      ((sortedPriorities provs).filter
        (prioMatchesOverride (get_active_test_override st.test_override a now).1))
      (([], none), { st with
        test_override := (get_active_test_override st.test_override a now).2 })
    split
    · dsimp only
      exact hfold
    · dsimp only
      exact hfold
  · split <;> rfl

/-- Repeated selections: the router state after `n` sequential
`select_providers` calls. -/
def selectIterate (bench : Nat → String → List String → Option String)
    (budget : Nat) (failover : Bool) (cur : Option Provider)
    (provs : List Provider) (a : String) (now : Nat) :
    Nat → RouterState → RouterState
  | 0, st => st
  | n + 1, st =>
    selectIterate bench budget failover cur provs a now n
      (select_providers_impl bench budget failover cur provs a now st).2

/-- C4: `select_providers` never consumes a HalfOpen permit.  The selection
path only reads breaker state through the availability predicate, so after
any number of selections every breaker's state — in particular its count of
outstanding HalfOpen permits — is unchanged; and `is_available` is exactly
the read-only version of `allow_request` (true iff a permit request would be
allowed, without the state transition `allow_request` performs). -/
theorem C4_selection_preserves_breakers
    (bench : Nat → String → List String → Option String) (budget : Nat)
    (failover : Bool) (cur : Option Provider) (provs : List Provider)
    (a : String) (now : Nat) (n : Nat) (st : RouterState) (pid : String)
    (b : BreakerState) :
    (selectIterate bench budget failover cur provs a now n st).breakers
      = st.breakers ∧
    permitsOutstanding
        ((selectIterate bench budget failover cur provs a now n st).breakers pid)
      = permitsOutstanding (st.breakers pid) ∧
    is_available budget now b = (allowRequest budget now b).1.allowed := by
  have hiter : ∀ (k : Nat) (s : RouterState),
      (selectIterate bench budget failover cur provs a now k s).breakers
        = s.breakers := by
    intro k
    induction k with
    | zero => intro s; rfl
    | succ m ih =>
      intro s
      rw [selectIterate, ih, breakers_select_providers]
  refine ⟨hiter n st, by rw [hiter n st], ?_⟩
  cases b with
  | closed => rfl
  | opened u => by_cases h : now ≥ u <;> simp [is_available, allowRequest, h]
  | halfOpen p => by_cases h : p < budget <;> simp [is_available, allowRequest, h]

/-! ## Forwarder (`src/src-tauri/src/proxy/forwarder.rs`)

The error enum lives in `proxy/error.rs`, which is not among the given
sources; it is modelled from the spec (§4.8 lists the surfaced kinds).  The
classification functions and the retry/tier-walk control flow below are
translated from `forwarder.rs`.  The walk is embedded as a trace-producing
function: network sends are an outcome oracle, and the side effects a claim
observes (breaker permit acquisition, `record_result`, persisting the
`LastRequestSummary`, and each attempt with its backoff delay) are emitted
as events. -/

/-- Modelled from the spec (§4.8): the `ProxyError` kinds surfaced by the
core.  (`error.rs` is not among the sources; `forwarder.rs` additionally
maps any kind outside this list to NonRetryable via its `_` arm, which is
unreachable for the spec's enumeration.) -/
inductive ProxyError where
  | timeout (msg : String)
  | forwardFailed (msg : String)
  | upstreamError (status : Nat) (body : Option String)
  | authError (msg : String)
  | configError (msg : String)
  | transformError (msg : String)
  | providerUnhealthy (msg : String)
  | streamIdleTimeout (msg : String)
  | maxRetriesExceeded
  | noAvailableProvider
deriving DecidableEq, Repr

/-- `ErrorCategory` used by `forwarder.rs`. -/
inductive ErrorCategory where
  | retryable
  | nonRetryable
  | clientAbort
deriving DecidableEq, Repr

/-- `categorize_proxy_error` from `forwarder.rs`: every kind is Retryable
(failover to the next provider) except `NoAvailableProvider`. -/
def categorize_proxy_error : ProxyError → ErrorCategory
  | ProxyError.timeout _ => ErrorCategory.retryable
  | ProxyError.forwardFailed _ => ErrorCategory.retryable
  | ProxyError.providerUnhealthy _ => ErrorCategory.retryable
  | ProxyError.upstreamError _ _ => ErrorCategory.retryable
  | ProxyError.configError _ => ErrorCategory.retryable
  | ProxyError.transformError _ => ErrorCategory.retryable
  | ProxyError.authError _ => ErrorCategory.retryable
  | ProxyError.streamIdleTimeout _ => ErrorCategory.retryable
  | ProxyError.maxRetriesExceeded => ErrorCategory.retryable
  | ProxyError.noAvailableProvider => ErrorCategory.nonRetryable

/-- `should_retry_same_provider` from `forwarder.rs`: in-provider retry for
timeouts, transport failures, and upstream 408/429/5xx. -/
def should_retry_same_provider : ProxyError → Bool
  | ProxyError.timeout _ => true
  | ProxyError.forwardFailed _ => true
  | ProxyError.upstreamError status _ =>
    status == 408 || status == 429 || status ≥ 500
  | _ => false

/-- The outcome of one upstream send (the oracle for `forward`). -/
inductive Outcome where
  | ok
  | err (e : ProxyError)
deriving DecidableEq, Repr

/-- Observable side effects of the forwarding walk. -/
inductive FEvent where
  | allow_request_called (pid : String)
  | record_result (pid : String) (used_half_open_permit : Bool) (ok : Bool)
  | persist_summary (app : String)
  | attempt (pid : String) (delay_ms : Nat)
deriving DecidableEq, Repr

/-- Breaker-state or Store effects (everything except the attempts
themselves). -/
def isStateEvent : FEvent → Bool
  | FEvent.allow_request_called _ => true
  | FEvent.record_result _ _ _ => true
  | FEvent.persist_summary _ => true
  | FEvent.attempt _ _ => false

def isAllowEvent : FEvent → Bool
  | FEvent.allow_request_called _ => true
  | _ => false

def attemptDelays (evs : List FEvent) : List Nat :=
  evs.filterMap (fun e =>
    match e with
    | FEvent.attempt _ d => some d
    | _ => none)

def attemptPids (evs : List FEvent) : List String :=
  evs.filterMap (fun e =>
    match e with
    | FEvent.attempt pid _ => some pid
    | _ => none)

/-- The attempt loop of `forward_with_provider_retry` from `forwarder.rs`:
`for attempt in 0..=max_retries`, with backoff `100ms * 2^(attempt-1)`
before every attempt after the first, stopping early on success or on an
error that is not same-provider-retryable; when the attempts are exhausted
the last error (or `MaxRetriesExceeded`) is returned.  `n` is the number of
attempts remaining and `idx` the current attempt index. -/
def backoffDelay (idx : Nat) : Nat :=
  if idx == 0 then 0 else 100 * 2 ^ (idx - 1)

/-- The attempt loop itself; see `backoffDelay` for the delay schedule. -/
def provider_retry_go (outcome : Nat → Outcome) (pid : String) :
    Nat → Nat → Option ProxyError → List FEvent × Except ProxyError Unit
  | 0, _, lastErr =>
    ([], Except.error (lastErr.getD ProxyError.maxRetriesExceeded))
  | n + 1, idx, _ =>
    let ev := FEvent.attempt pid (backoffDelay idx)
    match outcome idx with
    | Outcome.ok => ([ev], Except.ok ())
    | Outcome.err e =>
      if !should_retry_same_provider e then ([ev], Except.error e)
      else
        let r := provider_retry_go outcome pid n (idx + 1) (some e)
        (ev :: r.1, r.2)

/-- `forward_with_provider_retry` from `forwarder.rs`:
`max_retries + 1` attempts in total. -/
def forward_with_provider_retry (outcome : Nat → Outcome) (pid : String)
    (max_retries : Nat) : List FEvent × Except ProxyError Unit :=
  provider_retry_go outcome pid (max_retries + 1) 0 none

/-- The single-provider (circuit-breaker-bypassing) branch of
`forward_with_retry` (`providers.len() == 1`): persist the summary unless a
test override is active, run the provider with in-provider retries (a
single send in test mode), and record the result to the breaker unless a
test override is active.  `allow_request` is never consulted. -/
def forward_single (is_startup_test : Bool) (outcome : Nat → Outcome)
    (pid : String) (app : String) (max_retries : Nat) :
    List FEvent × Except ProxyError String :=
  let persistEv : List FEvent :=
    if is_startup_test then [] else [FEvent.persist_summary app]
  let r :=
    if is_startup_test then
      match outcome 0 with
      | Outcome.ok => ([FEvent.attempt pid 0], Except.ok ())
      | Outcome.err e => ([FEvent.attempt pid 0], Except.error e)
    else forward_with_provider_retry outcome pid max_retries
  let recordEv : List FEvent :=
    if is_startup_test then []
    else
      [FEvent.record_result pid false
        (match r.2 with
         | Except.ok _ => true
         | Except.error _ => false)]
  (persistEv ++ r.1 ++ recordEv, r.2.map (fun _ => pid))

/-- How one executed attempt of the tier walk ends. -/
inductive AttemptRes where
  | finish (r : Except ProxyError String)
  | nextProvider (e : ProxyError)
deriving Repr

/-- One executed attempt of the tier walk (after the permit was granted):
persist the summary unless in test mode, send, record the result to the
breaker unless in test mode, then classify: success and NonRetryable
errors end the walk, Retryable errors move to the next provider (but end
the walk at once in test mode — first-error-stops). -/
def provAttempt (test : Bool) (app : String)
    (moutcome : String → Nat → Outcome) (round : Nat) (pid : String)
    (used : Bool) : List FEvent × AttemptRes :=
  let evs1 : List FEvent :=
    (if test then [] else [FEvent.persist_summary app]) ++ [FEvent.attempt pid 0]
  match moutcome pid round with
  | Outcome.ok =>
    (evs1 ++ (if test then [] else [FEvent.record_result pid used true]),
     AttemptRes.finish (Except.ok pid))
  | Outcome.err e =>
    let evs2 := evs1 ++ (if test then [] else [FEvent.record_result pid used false])
    match categorize_proxy_error e with
    | ErrorCategory.retryable =>
      if test then (evs2, AttemptRes.finish (Except.error e))
      else (evs2, AttemptRes.nextProvider e)
    | ErrorCategory.nonRetryable => (evs2, AttemptRes.finish (Except.error e))
    | ErrorCategory.clientAbort => (evs2, AttemptRes.finish (Except.error e))

/-- Exit status of the provider loop within one round. -/
inductive LoopExit where
  | finished (r : Except ProxyError String)
  | roundDone (skipped attempted : Nat) (lastErr : Option ProxyError)
deriving Repr

/-- The inner provider loop of the tier walk in `forward_with_retry`: a
permit is synthesized without consulting the breaker in test mode, else
acquired via `allow_request` (updating that breaker's state); a denied
permit counts into `skipped_by_circuit`. -/
def provLoop (test : Bool) (app : String)
    (moutcome : String → Nat → Outcome) (budget now round : Nat) :
    List String → (String → BreakerState) → Nat → Nat → Option ProxyError →
    List FEvent × ((String → BreakerState) × LoopExit)
  | [], B, skipped, attempted, lastErr =>
    ([], (B, LoopExit.roundDone skipped attempted lastErr))
  | pid :: rest, B, skipped, attempted, lastErr =>
    let pk : AllowResult × (String → BreakerState) × List FEvent :=
      if test then (⟨true, false⟩, B, [])
      else
        let ar := allowRequest budget now (B (app ++ ":" ++ pid))
        (ar.1, fun k => if k == app ++ ":" ++ pid then ar.2 else B k,
         [FEvent.allow_request_called pid])
    if !pk.1.allowed then
      let r := provLoop test app moutcome budget now round rest pk.2.1
        (skipped + 1) attempted lastErr
      (pk.2.2 ++ r.1, r.2)
    else
      let a := provAttempt test app moutcome round pid pk.1.used_half_open_permit
      match a.2 with
      | AttemptRes.finish res => (pk.2.2 ++ a.1, (pk.2.1, LoopExit.finished res))
      | AttemptRes.nextProvider e =>
        let r := provLoop test app moutcome budget now round rest pk.2.1
          skipped (attempted + 1) (some e)
        (pk.2.2 ++ a.1 ++ r.1, r.2)

/-- Exit status of one tier of the walk. -/
inductive TierExit where
  | finished (r : Except ProxyError String)
  | tierDone (attempted : Nat) (lastErr : Option ProxyError)
deriving Repr

/-- The round loop of the tier walk: up to `rounds` passes over the tier's
providers, stopping early when the walk finished or when a whole pass was
skipped by the circuit breaker. -/
def roundLoop (test : Bool) (app : String)
    (moutcome : String → Nat → Outcome) (budget now : Nat)
    (level : List String) :
    Nat → Nat → (String → BreakerState) → Nat → Option ProxyError →
    List FEvent × ((String → BreakerState) × TierExit)
  | 0, _, B, attempted, lastErr => ([], (B, TierExit.tierDone attempted lastErr))
  | n + 1, round, B, attempted, lastErr =>
    let r := provLoop test app moutcome budget now round level B 0 attempted lastErr
    match r.2.2 with
    | LoopExit.finished res => (r.1, (r.2.1, TierExit.finished res))
    | LoopExit.roundDone skipped attempted2 lastErr2 =>
      if skipped ≥ level.length then
        (r.1, (r.2.1, TierExit.tierDone attempted2 lastErr2))
      else
        let r2 := roundLoop test app moutcome budget now level n (round + 1)
          r.2.1 attempted2 lastErr2
        (r.1 ++ r2.1, r2.2)

/-- The tier loop of `forward_with_retry`: tiers in ascending `sort_index`
order, each exhausted before the next is entered. -/
def tierLoop (test : Bool) (app : String)
    (moutcome : String → Nat → Outcome) (budget now rounds : Nat) :
    List (List String) → (String → BreakerState) → Nat → Option ProxyError →
    List FEvent × ((String → BreakerState) × TierExit)
  | [], B, attempted, lastErr => ([], (B, TierExit.tierDone attempted lastErr))
  | level :: rest, B, attempted, lastErr =>
    if level.isEmpty then
      tierLoop test app moutcome budget now rounds rest B attempted lastErr
    else
      let r := roundLoop test app moutcome budget now level rounds 0 B
        attempted lastErr
      match r.2.2 with
      | TierExit.finished res => (r.1, (r.2.1, TierExit.finished res))
      | TierExit.tierDone attempted2 lastErr2 =>
        let r2 := tierLoop test app moutcome budget now rounds rest r.2.1
          attempted2 lastErr2
        (r.1 ++ r2.1, r2.2)

/-- The multi-branch grouping of `forward_with_retry`: providers grouped by
`sort_index` (missing = 999999) in ascending order (`BTreeMap`). -/
def groupByPriorityIds (providers : List Provider) : List (List String) :=
  (sortedPriorities providers).map (fun pr =>
    (providers.filter (fun p => p.sort_index.getD 999999 == pr)).map Provider.id)

/-- `forward_with_retry` from `forwarder.rs`: an empty chain is
`NoAvailableProvider`; a one-provider chain takes the circuit-breaker
bypassing single branch; otherwise the tier walk runs with
`rounds_per_priority = max(1, max_retries)` (forced to 1 in test mode).
When the walk ends without an executed attempt the error is
`NoAvailableProvider` (everything was skipped by the breaker); otherwise the
last error (or `MaxRetriesExceeded`). -/
def forward_with_retry (test : Bool) (app : String)
    (providers : List Provider) (moutcome : String → Nat → Outcome)
    (budget now max_retries : Nat) (B : String → BreakerState) :
    List FEvent × Except ProxyError String :=
  if providers.isEmpty then ([], Except.error ProxyError.noAvailableProvider)
  else
    match providers with
    | [p] => forward_single test (moutcome p.id) p.id app max_retries
    | _ =>
      let rounds := if test then 1 else max 1 max_retries
      let levels := groupByPriorityIds providers
      let r := tierLoop test app moutcome budget now rounds levels B 0 none
      match r.2.2 with
      | TierExit.finished res => (r.1, res)
      | TierExit.tierDone attempted lastErr =>
        if attempted == 0 then
          (r.1, Except.error ProxyError.noAvailableProvider)
        else
          (r.1, Except.error (lastErr.getD ProxyError.maxRetriesExceeded))

/-! ## C1: test traffic leaves breaker state and the Store untouched -/

theorem stateEvents_provAttempt (app : String)
    (moutcome : String → Nat → Outcome) (round : Nat) (pid : String)
    (used : Bool) :
    (provAttempt true app moutcome round pid used).1.filter isStateEvent
      = [] := by
  unfold provAttempt
  cases moutcome pid round with
  | ok => simp [isStateEvent]
  | err e => cases hc : categorize_proxy_error e <;> simp [hc, isStateEvent]

theorem stateEvents_provLoop (app : String)
    (moutcome : String → Nat → Outcome) (budget now round : Nat) :
    ∀ (l : List String) (B : String → BreakerState)
      (skipped attempted : Nat) (lastErr : Option ProxyError),
    (provLoop true app moutcome budget now round l B skipped attempted
      lastErr).1.filter isStateEvent = [] := by
  intro l
  induction l with
  | nil => intro B s a le; rfl
  | cons pid rest ih =>
    intro B s a le
    simp only [provLoop]
    cases hA : (provAttempt true app moutcome round pid false).2 with
    | finish res =>
      have h := stateEvents_provAttempt app moutcome round pid false
      simp [hA, h, List.filter_append]
    | nextProvider e =>
      have h := stateEvents_provAttempt app moutcome round pid false
      simp [hA, h, List.filter_append, ih]

theorem stateEvents_roundLoop (app : String)
    (moutcome : String → Nat → Outcome) (budget now : Nat)
    (level : List String) :
    ∀ (n round : Nat) (B : String → BreakerState) (attempted : Nat)
      (lastErr : Option ProxyError),
    (roundLoop true app moutcome budget now level n round B attempted
      lastErr).1.filter isStateEvent = [] := by
  intro n
  induction n with
  | zero => intro round B a le; rfl
  | succ m ih =>
    intro round B a le
    simp only [roundLoop]
    cases hL : (provLoop true app moutcome budget now round level B 0 a
        le).2.2 with
    | finished res =>
      have h := stateEvents_provLoop app moutcome budget now round level B 0 a le
      simp [h]
    | roundDone skipped a2 le2 =>
      have h := stateEvents_provLoop app moutcome budget now round level B 0 a le
      by_cases hs : skipped ≥ level.length
      · simp [hs, h]
      · simp [hs, h, List.filter_append, ih]

theorem stateEvents_tierLoop (app : String)
    (moutcome : String → Nat → Outcome) (budget now rounds : Nat) :
    ∀ (levels : List (List String)) (B : String → BreakerState)
      (attempted : Nat) (lastErr : Option ProxyError),
    (tierLoop true app moutcome budget now rounds levels B attempted
      lastErr).1.filter isStateEvent = [] := by
  intro levels
  induction levels with
  | nil => intro B a le; rfl
  | cons level rest ih =>
    intro B a le
    simp only [tierLoop]
    by_cases he : level.isEmpty
    · simp [he, ih]
    · cases hR : (roundLoop true app moutcome budget now level rounds 0 B a
          le).2.2 with
      | finished res =>
        have h := stateEvents_roundLoop app moutcome budget now level rounds 0 B a le
        simp [he, hR, h]
      | tierDone a2 le2 =>
        have h := stateEvents_roundLoop app moutcome budget now level rounds 0 B a le
        simp [he, hR, h, List.filter_append, ih]

theorem stateEvents_forward_single (outcome : Nat → Outcome) (pid app : String)
    (max_retries : Nat) :
    (forward_single true outcome pid app max_retries).1.filter isStateEvent
      = [] := by
  unfold forward_single
  cases outcome 0 <;> simp [isStateEvent]

/-- C1: while a test override is active (`is_startup_test`), the Forwarder
neither acquires a breaker permit via `allow_request` nor calls
`record_result`, and never persists a `LastRequestSummary` to the Store —
the walk's event trace contains no breaker or Store effect at all, only the
attempts themselves.  Consequently every persisted summary comes from a
walk with `is_startup_test = false`. -/
theorem C1_test_traffic_no_state (app : String) (providers : List Provider)
    (moutcome : String → Nat → Outcome) (budget now max_retries : Nat)
    (B : String → BreakerState) :
    (forward_with_retry true app providers moutcome budget now max_retries
        B).1.filter isStateEvent = [] ∧
    (forward_with_retry true app providers moutcome budget now max_retries
        B).1.contains (FEvent.persist_summary app) = false := by
  have h1 : (forward_with_retry true app providers moutcome budget now
      max_retries B).1.filter isStateEvent = [] := by
    unfold forward_with_retry
    by_cases he : providers.isEmpty
    · simp [he]
    · cases providers with
      | nil => simp at he
      | cons p rest =>
        cases rest with
        | nil => simp [he, stateEvents_forward_single]
        | cons q rest2 =>
          simp only [he]
          cases hT : (tierLoop true app moutcome budget now 1
              (groupByPriorityIds (p :: q :: rest2)) B 0 none).2.2 with
          | finished res =>
            have h := stateEvents_tierLoop app moutcome budget now 1
              (groupByPriorityIds (p :: q :: rest2)) B 0 none
            simp [hT, h]
          | tierDone a le =>
            have h := stateEvents_tierLoop app moutcome budget now 1
              (groupByPriorityIds (p :: q :: rest2)) B 0 none
            by_cases ha : a == 0 <;> simp [hT, h, ha]
  refine ⟨h1, ?_⟩
  by_contra hc
  rw [Bool.not_eq_false] at hc
  have hm : FEvent.persist_summary app ∈
      (forward_with_retry true app providers moutcome budget now max_retries
        B).1 := by
    simpa using hc
  have hf : FEvent.persist_summary app ∈
      (forward_with_retry true app providers moutcome budget now max_retries
        B).1.filter isStateEvent :=
    List.mem_filter.mpr ⟨hm, rfl⟩
  rw [h1] at hf
  exact absurd hf (List.not_mem_nil _)

/-! ## C5: failover eligibility of error kinds -/

/-- A tier-1 provider used in the failover-walk instance. -/
def fwdP1 : Provider :=
  { id := "p1", name := "s1-key1", sort_index := some 1,
    env := [("ANTHROPIC_BASE_URL", "https://u1.example"),
            ("ANTHROPIC_API_KEY", "K1")],
    base_url_field := none }

/-- A second tier-1 provider used in the failover-walk instance. -/
def fwdP2 : Provider :=
  { id := "p2", name := "s1-key2", sort_index := some 1,
    env := [("ANTHROPIC_BASE_URL", "https://u1.example"),
            ("ANTHROPIC_API_KEY", "K2")],
    base_url_field := none }

/-- Outcome oracle where `p1` fails with `e` and every other provider
succeeds. -/
def c5Oracle (e : ProxyError) : String → Nat → Outcome :=
  fun pid _ => if pid == "p1" then Outcome.err e else Outcome.ok

/-- C5: in the multi-provider (failover) walk, every error kind except
`NoAvailableProvider` is classified Retryable and makes the Forwarder
continue to the next provider — including `UpstreamError` with any status
(hence 401/403), `AuthError`, `ConfigError` and `TransformError` — while
`NoAvailableProvider` is NonRetryable and ends the walk at once.
Instantiated: with providers `[p1, p2]` in one tier and `p1` failing with
`e`, the walk succeeds on `p2` having attempted both iff `e` is Retryable,
and otherwise returns `e` having attempted only `p1`. -/
theorem C5_failover_categorization :
    (∀ e : ProxyError,
      (categorize_proxy_error e = ErrorCategory.retryable
        ↔ e ≠ ProxyError.noAvailableProvider)) ∧
    (∀ e : ProxyError,
      (forward_with_retry false "claude" [fwdP1, fwdP2] (c5Oracle e) 1 0 1
          (fun _ => BreakerState.closed)).2
        = (if categorize_proxy_error e = ErrorCategory.retryable then
            Except.ok "p2" else Except.error e) ∧
      attemptPids (forward_with_retry false "claude" [fwdP1, fwdP2]
          (c5Oracle e) 1 0 1 (fun _ => BreakerState.closed)).1
        = (if categorize_proxy_error e = ErrorCategory.retryable then
            ["p1", "p2"] else ["p1"])) := by
  constructor
  · intro e
    cases e <;> simp [categorize_proxy_error]
  · intro e
    cases e <;> exact ⟨rfl, rfl⟩

/-! ## C9: the single-provider bypass branch -/

theorem retry_go_all_retryable (outcome : Nat → Outcome) (pid : String)
    (h : ∀ i, ∃ e, outcome i = Outcome.err e
      ∧ should_retry_same_provider e = true) :
    ∀ (n idx : Nat) (lastErr : Option ProxyError),
    attemptDelays (provider_retry_go outcome pid n idx lastErr).1
      = (List.range' idx n).map backoffDelay ∧
    ∃ e2, (provider_retry_go outcome pid n idx lastErr).2
      = Except.error e2 := by
  intro n
  induction n with
  | zero =>
    intro idx le
    exact ⟨rfl, le.getD ProxyError.maxRetriesExceeded, rfl⟩
  | succ m ih =>
    intro idx le
    obtain ⟨e, he, hr⟩ := h idx
    obtain ⟨ih1, e2, ih2⟩ := ih (idx + 1) (some e)
    simp only [provider_retry_go, he, hr, Bool.not_true, Bool.false_eq_true,
      if_false]
    refine ⟨?_, e2, ?_⟩
    · rw [List.range'_succ, List.map_cons, ← ih1]
      rfl
    · simpa using ih2

theorem retry_go_no_allow (outcome : Nat → Outcome) (pid : String) :
    ∀ (n idx : Nat) (lastErr : Option ProxyError),
    (provider_retry_go outcome pid n idx lastErr).1.filter isAllowEvent
      = [] := by
  intro n
  induction n with
  | zero => intro idx le; rfl
  | succ m ih =>
    intro idx le
    simp only [provider_retry_go]
    cases outcome idx with
    | ok => simp [isAllowEvent]
    | err e =>
      by_cases hr : should_retry_same_provider e <;>
        simp [hr, isAllowEvent, ih]

theorem forward_single_no_allow (test : Bool) (outcome : Nat → Outcome)
    (pid app : String) (max_retries : Nat) :
    (forward_single test outcome pid app max_retries).1.filter isAllowEvent
      = [] := by
  unfold forward_single forward_with_provider_retry
  cases test with
  | true => cases outcome 0 <;> simp [isAllowEvent]
  | false =>
    simp [isAllowEvent, List.filter_append,
      retry_go_no_allow outcome pid (max_retries + 1) 0 none]

theorem backoff_range (mr : Nat) :
    (List.range' 0 (mr + 1)).map backoffDelay
      = 0 :: (List.range mr).map (fun k => 100 * 2 ^ k) := by
  rw [List.range'_succ, List.map_cons]
  have h0 : backoffDelay 0 = 0 := rfl
  rw [h0]
  congr 1
  rw [List.range'_eq_map_range, List.map_map]
  apply List.map_congr_left
  intro k _
  show backoffDelay (1 + k) = 100 * 2 ^ k
  rw [Nat.add_comm 1 k]
  simp [backoffDelay]

/-- C9: the Forwarder takes the circuit-breaker-bypassing single-provider
branch exactly when the chain has one provider (the branch test is
`providers.len() == 1`, independent of the failover setting); in that
branch no `allow_request` permit is ever acquired; and outside test mode,
when every attempt fails with a same-provider-retryable error, the provider
is retried in place with backoff `100ms * 2^(attempt-1)` for `max_retries`
additional attempts after the first, after which the request fails. -/
theorem C9_single_provider_branch (test : Bool) (app : String) (p : Provider)
    (moutcome : String → Nat → Outcome) (budget now max_retries : Nat)
    (B : String → BreakerState) (outcome : Nat → Outcome) (pid : String)
    (h : ∀ i, ∃ e, outcome i = Outcome.err e
      ∧ should_retry_same_provider e = true) :
    forward_with_retry test app [p] moutcome budget now max_retries B
      = forward_single test (moutcome p.id) p.id app max_retries ∧
    (forward_single test outcome pid app max_retries).1.filter isAllowEvent
      = [] ∧
    attemptDelays (forward_single false outcome pid app max_retries).1
      = 0 :: (List.range max_retries).map (fun k => 100 * 2 ^ k) ∧
    ∃ e2, (forward_single false outcome pid app max_retries).2
      = Except.error e2 := by
  obtain ⟨hd, e2, he2⟩ := retry_go_all_retryable outcome pid h
    (max_retries + 1) 0 none
  refine ⟨rfl, forward_single_no_allow test outcome pid app max_retries,
    ?_, e2, ?_⟩
  · have key : attemptDelays
        (forward_single false outcome pid app max_retries).1
        = attemptDelays
            (forward_with_provider_retry outcome pid max_retries).1 := by
      unfold forward_single
      simp [attemptDelays, List.filterMap_append]
    rw [key]
    unfold forward_with_provider_retry
    rw [hd]
    exact backoff_range max_retries
  · unfold forward_single forward_with_provider_retry
    simp [he2, Except.map]

/-- Witness for `C9_single_provider_branch`: with every attempt failing on
a timeout and `max_retries = 2`, the attempt delays are 0, 100, 200 ms. -/
theorem C9_single_provider_branch_witness :
    (∀ i : Nat, ∃ e,
      (fun (_ : Nat) => Outcome.err (ProxyError.timeout "t")) i
        = Outcome.err e ∧ should_retry_same_provider e = true) ∧
    attemptDelays (forward_single false
        (fun _ => Outcome.err (ProxyError.timeout "t")) "p" "claude" 2).1
      = [0, 100, 200] := by
  constructor
  · intro i
    exact ⟨ProxyError.timeout "t", rfl, rfl⟩
  · have h := (C9_single_provider_branch false "claude" fwdP1
      (fun _ _ => Outcome.err (ProxyError.timeout "t")) 1 0 2
      (fun _ => BreakerState.closed)
      (fun _ => Outcome.err (ProxyError.timeout "t")) "p"
      (fun _ => ⟨ProxyError.timeout "t", rfl, rfl⟩)).2.2.1
    rw [h]
    decide

end CCSwitch
